import Mathlib

/-!
# ILI9881C MIPI-DSI panel driver

A shallow embedding of `components/lcd/esp_lcd_ili9881c/esp_lcd_ili9881c.c`.

* Every call the driver makes into the platform (allocator, GPIO, panel IO
  transport, FreeRTOS delay) is appended, in program order, to a trace of
  `Event`s.
* What the platform answers is given by an `Env`: each fallible platform call
  is a function of the trace so far and of the call's arguments, so an `Env`
  can describe any behaviour of the transport, including one that starts to
  fail at a chosen call.
* The names the driver takes from ESP-IDF headers (`ESP_OK`, `LCD_CMD_*`, ...)
  are not defined in this component; they are the fields of `IdfDefs` and the
  driver is a function of them.
* `uint8_t` fields are natural numbers reduced modulo 256 at every store.
* Log output (`ESP_LOGx`) has no effect on state or result and is left out.
-/

namespace Ili9881c

set_option maxRecDepth 8192

/-- The C type `esp_err_t` (an `int`). -/
abbrev esp_err_t := Int

/-- Names used by the driver whose definitions live in ESP-IDF headers
(`esp_err.h`, `esp_lcd_types.h`, `esp_lcd_panel_commands.h`).  Error codes,
enumerators and opcodes are C `int`s; the four `*_BIT` masks are non-negative
`int`s and are kept as natural numbers for the bitwise operators. -/
structure IdfDefs where
  ESP_OK : esp_err_t
  ESP_ERR_NO_MEM : esp_err_t
  ESP_ERR_INVALID_ARG : esp_err_t
  ESP_ERR_NOT_SUPPORTED : esp_err_t
  LCD_RGB_ELEMENT_ORDER_RGB : Int
  LCD_RGB_ELEMENT_ORDER_BGR : Int
  LCD_CMD_SWRESET : Int
  LCD_CMD_SLPIN : Int
  LCD_CMD_SLPOUT : Int
  LCD_CMD_INVOFF : Int
  LCD_CMD_INVON : Int
  LCD_CMD_DISPOFF : Int
  LCD_CMD_DISPON : Int
  LCD_CMD_MADCTL : Int
  LCD_CMD_COLMOD : Int
  LCD_CMD_BGR_BIT : Nat
  LCD_CMD_MV_BIT : Nat
  LCD_CMD_MX_BIT : Nat
  LCD_CMD_MY_BIT : Nat

/-- The values ESP-IDF gives to the names of `IdfDefs`; used to instantiate
the general statements at a concrete platform. -/
def esp_idf : IdfDefs where
  ESP_OK := 0
  ESP_ERR_NO_MEM := 0x101
  ESP_ERR_INVALID_ARG := 0x102
  ESP_ERR_NOT_SUPPORTED := 0x106
  LCD_RGB_ELEMENT_ORDER_RGB := 0
  LCD_RGB_ELEMENT_ORDER_BGR := 1
  LCD_CMD_SWRESET := 0x01
  LCD_CMD_SLPIN := 0x10
  LCD_CMD_SLPOUT := 0x11
  LCD_CMD_INVOFF := 0x20
  LCD_CMD_INVON := 0x21
  LCD_CMD_DISPOFF := 0x28
  LCD_CMD_DISPON := 0x29
  LCD_CMD_MADCTL := 0x36
  LCD_CMD_COLMOD := 0x3A
  LCD_CMD_BGR_BIT := 0x08
  LCD_CMD_MV_BIT := 0x20
  LCD_CMD_MX_BIT := 0x40
  LCD_CMD_MY_BIT := 0x80

/-- One call into the platform.  `io` is the transport handle (0 is `NULL`),
`param` the bytes behind the parameter pointer (`[]` for `NULL`) and
`param_size` the byte count passed with it.  `vTaskDelay ms` stands for
`vTaskDelay(pdMS_TO_TICKS(ms))`. -/
inductive Event where
  | calloc
  | free
  | gpio_config (pin_bit_mask : Nat)
  | gpio_reset_pin (gpio_num : Int)
  | gpio_set_level (gpio_num : Int) (level : Bool)
  | tx_param (io : Nat) (lcd_cmd : Int) (param : List Nat) (param_size : Nat)
  | rx_param (io : Nat) (lcd_cmd : Int) (param_size : Nat)
  | vTaskDelay (ms : Nat)
  deriving DecidableEq, Repr

/-- The answers of the platform.  The first argument of every field is the
trace of the calls made before this one. -/
structure Env where
  calloc : List Event → Bool
  gpio_config : List Event → Nat → esp_err_t
  tx_param : List Event → Nat → Int → List Nat → Nat → esp_err_t
  rx_param : List Event → Nat → Int → Nat → esp_err_t × List Nat

/-- The entry type `ili9881c_lcd_init_cmd_t`. -/
structure ili9881c_lcd_init_cmd_t where
  cmd : Int
  data : List Nat
  data_bytes : Nat
  deriving DecidableEq, Repr

/-- The table `vendor_specific_init_code_default`, entry by entry. -/
def vendor_specific_init_code_default : List ili9881c_lcd_init_cmd_t :=
  ⟨0xFF, [0x98, 0x81, 0x03], 3⟩ ::
  ⟨0x01, [0x00], 1⟩ ::
  ⟨0x02, [0x00], 1⟩ ::
  ⟨0x03, [0x5D], 1⟩ ::
  ⟨0x04, [0x17], 1⟩ ::
  ⟨0x05, [0x00], 1⟩ ::
  ⟨0x06, [0x0E], 1⟩ ::
  ⟨0x07, [0x00], 1⟩ ::
  ⟨0x08, [0x00], 1⟩ ::
  ⟨0x09, [0x21], 1⟩ ::
  ⟨0x0a, [0x21], 1⟩ ::
  ⟨0x0b, [0x00], 1⟩ ::
  ⟨0x0c, [0x06], 1⟩ ::
  ⟨0x0d, [0x06], 1⟩ ::
  ⟨0x0e, [0x00], 1⟩ ::
  ⟨0x0f, [0x22], 1⟩ ::
  ⟨0x10, [0x22], 1⟩ ::
  ⟨0x11, [0x00], 1⟩ ::
  ⟨0x12, [0x00], 1⟩ ::
  ⟨0x13, [0x05], 1⟩ ::
  ⟨0x14, [0x00], 1⟩ ::
  ⟨0x15, [0x00], 1⟩ ::
  ⟨0x16, [0x00], 1⟩ ::
  ⟨0x17, [0x00], 1⟩ ::
  ⟨0x18, [0x00], 1⟩ ::
  ⟨0x19, [0x00], 1⟩ ::
  ⟨0x1a, [0x00], 1⟩ ::
  ⟨0x1b, [0x00], 1⟩ ::
  ⟨0x1c, [0x00], 1⟩ ::
  ⟨0x1d, [0x00], 1⟩ ::
  ⟨0x1e, [0x40], 1⟩ ::
  ⟨0x1f, [0xC0], 1⟩ ::
  ⟨0x20, [0x0E], 1⟩ ::
  ⟨0x21, [0x09], 1⟩ ::
  ⟨0x22, [0x0F], 1⟩ ::
  ⟨0x23, [0x00], 1⟩ ::
  ⟨0x24, [0x8A], 1⟩ ::
  ⟨0x25, [0x8A], 1⟩ ::
  ⟨0x26, [0x00], 1⟩ ::
  ⟨0x27, [0x00], 1⟩ ::
  ⟨0x28, [0x77], 1⟩ ::
  ⟨0x29, [0x77], 1⟩ ::
  ⟨0x2a, [0x00], 1⟩ ::
  ⟨0x2b, [0x00], 1⟩ ::
  ⟨0x2c, [0x02], 1⟩ ::
  ⟨0x2d, [0x02], 1⟩ ::
  ⟨0x2e, [0x07], 1⟩ ::
  ⟨0x2f, [0x07], 1⟩ ::
  ⟨0x30, [0x00], 1⟩ ::
  ⟨0x31, [0x00], 1⟩ ::
  ⟨0x32, [0x22], 1⟩ ::
  ⟨0x33, [0x00], 1⟩ ::
  ⟨0x34, [0x00], 1⟩ ::
  ⟨0x35, [0x0A], 1⟩ ::
  ⟨0x36, [0x00], 1⟩ ::
  ⟨0x37, [0x08], 1⟩ ::
  ⟨0x38, [0x3C], 1⟩ ::
  ⟨0x39, [0x00], 1⟩ ::
  ⟨0x3a, [0x00], 1⟩ ::
  ⟨0x3b, [0x00], 1⟩ ::
  ⟨0x3c, [0x00], 1⟩ ::
  ⟨0x3d, [0x00], 1⟩ ::
  ⟨0x3e, [0x00], 1⟩ ::
  ⟨0x3f, [0x00], 1⟩ ::
  ⟨0x40, [0x00], 1⟩ ::
  ⟨0x41, [0x00], 1⟩ ::
  ⟨0x42, [0x00], 1⟩ ::
  ⟨0x43, [0x08], 1⟩ ::
  ⟨0x44, [0x00], 1⟩ ::
  ⟨0x50, [0x01], 1⟩ ::
  ⟨0x51, [0x23], 1⟩ ::
  ⟨0x52, [0x45], 1⟩ ::
  ⟨0x53, [0x67], 1⟩ ::
  ⟨0x54, [0x89], 1⟩ ::
  ⟨0x55, [0xAB], 1⟩ ::
  ⟨0x56, [0x01], 1⟩ ::
  ⟨0x57, [0x23], 1⟩ ::
  ⟨0x58, [0x45], 1⟩ ::
  ⟨0x59, [0x67], 1⟩ ::
  ⟨0x5a, [0x89], 1⟩ ::
  ⟨0x5b, [0xAB], 1⟩ ::
  ⟨0x5c, [0xCD], 1⟩ ::
  ⟨0x5d, [0xEF], 1⟩ ::
  ⟨0x5e, [0x00], 1⟩ ::
  ⟨0x5f, [0x02], 1⟩ ::
  ⟨0x60, [0x02], 1⟩ ::
  ⟨0x61, [0x06], 1⟩ ::
  ⟨0x62, [0x0F], 1⟩ ::
  ⟨0x63, [0x0F], 1⟩ ::
  ⟨0x64, [0x13], 1⟩ ::
  ⟨0x65, [0x13], 1⟩ ::
  ⟨0x66, [0x0E], 1⟩ ::
  ⟨0x67, [0x0E], 1⟩ ::
  ⟨0x68, [0x12], 1⟩ ::
  ⟨0x69, [0x12], 1⟩ ::
  ⟨0x6a, [0x0D], 1⟩ ::
  ⟨0x6b, [0x0D], 1⟩ ::
  ⟨0x6c, [0x11], 1⟩ ::
  ⟨0x6d, [0x11], 1⟩ ::
  ⟨0x6e, [0x0C], 1⟩ ::
  ⟨0x6f, [0x0C], 1⟩ ::
  ⟨0x70, [0x10], 1⟩ ::
  ⟨0x71, [0x10], 1⟩ ::
  ⟨0x72, [0x00], 1⟩ ::
  ⟨0x73, [0x16], 1⟩ ::
  ⟨0x74, [0x08], 1⟩ ::
  ⟨0x75, [0x02], 1⟩ ::
  ⟨0x76, [0x02], 1⟩ ::
  ⟨0x77, [0x08], 1⟩ ::
  ⟨0x78, [0x0f], 1⟩ ::
  ⟨0x79, [0x0f], 1⟩ ::
  ⟨0x7a, [0x13], 1⟩ ::
  ⟨0x7b, [0x13], 1⟩ ::
  ⟨0x7c, [0x0e], 1⟩ ::
  ⟨0x7d, [0x0e], 1⟩ ::
  ⟨0x7e, [0x12], 1⟩ ::
  ⟨0x7f, [0x12], 1⟩ ::
  ⟨0x80, [0x0d], 1⟩ ::
  ⟨0x81, [0x0d], 1⟩ ::
  ⟨0x82, [0x11], 1⟩ ::
  ⟨0x83, [0x11], 1⟩ ::
  ⟨0x84, [0x0c], 1⟩ ::
  ⟨0x85, [0x0c], 1⟩ ::
  ⟨0x86, [0x10], 1⟩ ::
  ⟨0x87, [0x10], 1⟩ ::
  ⟨0x88, [0x17], 1⟩ ::
  ⟨0x89, [0x01], 1⟩ ::
  ⟨0x8a, [0x06], 1⟩ ::
  ⟨0xFF, [0x98, 0x81, 0x04], 3⟩ ::
  ⟨0x6E, [0x2A], 1⟩ ::
  ⟨0x6F, [0x37], 1⟩ ::
  ⟨0x3A, [0xA4], 1⟩ ::
  ⟨0x8D, [0x25], 1⟩ ::
  ⟨0x87, [0xBA], 1⟩ ::
  ⟨0xB2, [0xD1], 1⟩ ::
  ⟨0x88, [0x0B], 1⟩ ::
  ⟨0x38, [0x01], 1⟩ ::
  ⟨0x39, [0x00], 1⟩ ::
  ⟨0xB5, [0x07], 1⟩ ::
  ⟨0x31, [0x75], 1⟩ ::
  ⟨0x3B, [0x98], 1⟩ ::
  ⟨0xFF, [0x98, 0x81, 0x01], 3⟩ ::
  ⟨0x22, [0x0A], 1⟩ ::
  ⟨0x31, [0x0A], 1⟩ ::
  ⟨0x35, [0x07], 1⟩ ::
  ⟨0x52, [0x00], 1⟩ ::
  ⟨0x53, [0x73], 1⟩ ::
  ⟨0x54, [0x00], 1⟩ ::
  ⟨0x55, [0x3D], 1⟩ ::
  ⟨0x50, [0xD0], 1⟩ ::
  ⟨0x51, [0xCB], 1⟩ ::
  ⟨0x60, [0x14], 1⟩ ::
  ⟨0x62, [0x01], 1⟩ ::
  ⟨0x63, [0x01], 1⟩ ::
  ⟨0xA0, [0x00], 1⟩ ::
  ⟨0xA1, [0x18], 1⟩ ::
  ⟨0xA2, [0x28], 1⟩ ::
  ⟨0xA3, [0x17], 1⟩ ::
  ⟨0xA4, [0x1C], 1⟩ ::
  ⟨0xA5, [0x30], 1⟩ ::
  ⟨0xA6, [0x24], 1⟩ ::
  ⟨0xA7, [0x24], 1⟩ ::
  ⟨0xA8, [0x85], 1⟩ ::
  ⟨0xA9, [0x1C], 1⟩ ::
  ⟨0xAA, [0x26], 1⟩ ::
  ⟨0xAB, [0x66], 1⟩ ::
  ⟨0xAC, [0x19], 1⟩ ::
  ⟨0xAD, [0x18], 1⟩ ::
  ⟨0xAE, [0x4F], 1⟩ ::
  ⟨0xAF, [0x24], 1⟩ ::
  ⟨0xB0, [0x2B], 1⟩ ::
  ⟨0xB1, [0x4A], 1⟩ ::
  ⟨0xB2, [0x59], 1⟩ ::
  ⟨0xB3, [0x23], 1⟩ ::
  ⟨0xB7, [0x03], 1⟩ ::
  ⟨0xC0, [0x00], 1⟩ ::
  ⟨0xC1, [0x18], 1⟩ ::
  ⟨0xC2, [0x28], 1⟩ ::
  ⟨0xC3, [0x17], 1⟩ ::
  ⟨0xC4, [0x1B], 1⟩ ::
  ⟨0xC5, [0x2F], 1⟩ ::
  ⟨0xC6, [0x22], 1⟩ ::
  ⟨0xC7, [0x22], 1⟩ ::
  ⟨0xC8, [0x87], 1⟩ ::
  ⟨0xC9, [0x1C], 1⟩ ::
  ⟨0xCA, [0x27], 1⟩ ::
  ⟨0xCB, [0x66], 1⟩ ::
  ⟨0xCC, [0x19], 1⟩ ::
  ⟨0xCD, [0x1A], 1⟩ ::
  ⟨0xCE, [0x4E], 1⟩ ::
  ⟨0xCF, [0x24], 1⟩ ::
  ⟨0xD0, [0x2A], 1⟩ ::
  ⟨0xD1, [0x4C], 1⟩ ::
  ⟨0xD2, [0x5A], 1⟩ ::
  ⟨0xD3, [0x23], 1⟩ ::
  []

/-- The fields of `esp_lcd_panel_dev_config_t` the driver reads;
`reset_active_high` is `flags.reset_active_high`. -/
structure esp_lcd_panel_dev_config_t where
  reset_gpio_num : Int
  rgb_ele_order : Int
  bits_per_pixel : Nat
  reset_active_high : Bool
  deriving DecidableEq, Repr

/-- The driver instance `ili9881c_panel_t`.  The member `base` holds the fixed
table of the nine operations below and is not represented. -/
structure ili9881c_panel_t where
  io : Nat
  reset_gpio_num : Int
  x_gap : Int
  y_gap : Int
  madctl_val : Nat
  colmod_val : Nat
  init_cmds_size : Nat
  reset_level : Bool
  deriving DecidableEq, Repr

/-- The block returned by `calloc(1, sizeof(ili9881c_panel_t))`: all zero. -/
def calloc_panel : ili9881c_panel_t :=
  ⟨0, 0, 0, 0, 0, 0, 0, false⟩

/-- Bit pattern of `~m` for a 32-bit `int` holding `m`. -/
def int_not (m : Nat) : Nat := (2 ^ 32 - 1) ^^^ (m % 2 ^ 32)

/-- Result of the constructor: the returned code, the instance stored through
`ret_panel` (`none` when nothing was stored) and the trace. -/
structure NewResult where
  ret : esp_err_t
  ret_panel : Option ili9881c_panel_t
  trace : List Event
  deriving DecidableEq, Repr

/-- Result of a panel operation: the returned code, the instance after the
call and the trace. -/
structure OpResult where
  ret : esp_err_t
  panel : ili9881c_panel_t
  trace : List Event
  deriving DecidableEq, Repr

/-- The call `esp_lcd_panel_io_tx_param(io, lcd_cmd, param, param_size)`. -/
def esp_lcd_panel_io_tx_param (E : Env) (tr : List Event) (io : Nat) (lcd_cmd : Int)
    (param : List Nat) (param_size : Nat) : esp_err_t × List Event :=
  (E.tx_param tr io lcd_cmd param param_size, tr ++ [Event.tx_param io lcd_cmd param param_size])

/-- The call `esp_lcd_panel_io_rx_param(io, lcd_cmd, &buf, param_size)`. -/
def esp_lcd_panel_io_rx_param (E : Env) (tr : List Event) (io : Nat) (lcd_cmd : Int)
    (param_size : Nat) : (esp_err_t × List Nat) × List Event :=
  (E.rx_param tr io lcd_cmd param_size, tr ++ [Event.rx_param io lcd_cmd param_size])

/-- The function `panel_ili9881c_del`; the instance is freed, so only the
code and the trace are returned. -/
def panel_ili9881c_del (K : IdfDefs) (tr : List Event) (ili9881c : ili9881c_panel_t) :
    esp_err_t × List Event :=
  let tr := if ili9881c.reset_gpio_num ≥ 0 then
      tr ++ [Event.gpio_reset_pin ili9881c.reset_gpio_num] else tr
  (K.ESP_OK, tr ++ [Event.free])

/-- The label `err:` of the constructor, reached with a non-null instance. -/
def new_panel_err (K : IdfDefs) (tr : List Event) (ili9881c : ili9881c_panel_t)
    (ret : esp_err_t) : NewResult :=
  ⟨ret, none, (panel_ili9881c_del K tr ili9881c).2⟩

/-- The tail of the constructor after both `switch` statements: the identity
registers are read from page 1 (every result is discarded), the instance is
filled in and stored through `ret_panel`. -/
def new_panel_finish (K : IdfDefs) (E : Env) (tr : List Event) (io : Nat)
    (cfg : esp_lcd_panel_dev_config_t) (ili9881c : ili9881c_panel_t) : NewResult :=
  let tr := (esp_lcd_panel_io_tx_param E tr io 0xFF [0x98, 0x81, 0x01] 3).2
  let tr := (esp_lcd_panel_io_rx_param E tr io 0x00 1).2
  let tr := (esp_lcd_panel_io_rx_param E tr io 0x01 1).2
  let tr := (esp_lcd_panel_io_rx_param E tr io 0x02 1).2
  let ili9881c := { ili9881c with io := io }
  let ili9881c := { ili9881c with reset_gpio_num := cfg.reset_gpio_num }
  let ili9881c := { ili9881c with reset_level := cfg.reset_active_high }
  ⟨K.ESP_OK, some ili9881c, tr⟩

/-- The statement `switch (panel_dev_config->bits_per_pixel)` and what follows. -/
def new_panel_bits_per_pixel (K : IdfDefs) (E : Env) (tr : List Event) (io : Nat)
    (cfg : esp_lcd_panel_dev_config_t) (ili9881c : ili9881c_panel_t) : NewResult :=
  if cfg.bits_per_pixel = 16 then
    new_panel_finish K E tr io cfg { ili9881c with colmod_val := 0x55 }
  else if cfg.bits_per_pixel = 18 then
    new_panel_finish K E tr io cfg { ili9881c with colmod_val := 0x66 }
  else if cfg.bits_per_pixel = 24 then
    new_panel_finish K E tr io cfg { ili9881c with colmod_val := 0x77 }
  else
    new_panel_err K tr ili9881c K.ESP_ERR_NOT_SUPPORTED

/-- The statement `switch (panel_dev_config->rgb_ele_order)` and what follows. -/
def new_panel_rgb_ele_order (K : IdfDefs) (E : Env) (tr : List Event) (io : Nat)
    (cfg : esp_lcd_panel_dev_config_t) (ili9881c : ili9881c_panel_t) : NewResult :=
  if cfg.rgb_ele_order = K.LCD_RGB_ELEMENT_ORDER_RGB then
    new_panel_bits_per_pixel K E tr io cfg { ili9881c with madctl_val := 0 }
  else if cfg.rgb_ele_order = K.LCD_RGB_ELEMENT_ORDER_BGR then
    new_panel_bits_per_pixel K E tr io cfg
      { ili9881c with madctl_val := (ili9881c.madctl_val ||| K.LCD_CMD_BGR_BIT) % 256 }
  else
    new_panel_err K tr ili9881c K.ESP_ERR_NOT_SUPPORTED

/-- The value `1ULL << reset_gpio_num` stored in `io_conf.pin_bit_mask`. -/
def reset_pin_bit_mask (reset_gpio_num : Int) : Nat :=
  (2 ^ reset_gpio_num.toNat) % 2 ^ 64

/-- The function `esp_lcd_new_panel_ili9881c`.  `io` is the handle (0 is
`NULL`), `panel_dev_config` is `none` for a null pointer and `ret_panel` tells
whether the out-pointer is non-null. -/
def esp_lcd_new_panel_ili9881c (K : IdfDefs) (E : Env) (tr : List Event) (io : Nat)
    (panel_dev_config : Option esp_lcd_panel_dev_config_t) (ret_panel : Bool) : NewResult :=
  match panel_dev_config with
  | none => ⟨K.ESP_ERR_INVALID_ARG, none, tr⟩
  | some cfg =>
    if io = 0 ∨ ret_panel = false then ⟨K.ESP_ERR_INVALID_ARG, none, tr⟩ else
    let allocated := E.calloc tr
    let tr := tr ++ [Event.calloc]
    if allocated = false then ⟨K.ESP_ERR_NO_MEM, none, tr⟩ else
    let ili9881c := calloc_panel
    if cfg.reset_gpio_num ≥ 0 then
      let pin_bit_mask := reset_pin_bit_mask cfg.reset_gpio_num
      let ret := E.gpio_config tr pin_bit_mask
      let tr := tr ++ [Event.gpio_config pin_bit_mask]
      if ret ≠ K.ESP_OK then new_panel_err K tr ili9881c ret
      else new_panel_rgb_ele_order K E tr io cfg ili9881c
    else new_panel_rgb_ele_order K E tr io cfg ili9881c

/-- The function `panel_ili9881c_reset`. -/
def panel_ili9881c_reset (K : IdfDefs) (E : Env) (tr : List Event)
    (ili9881c : ili9881c_panel_t) : OpResult :=
  let io := ili9881c.io
  if ili9881c.reset_gpio_num ≥ 0 then
    let tr := tr ++ [Event.gpio_set_level ili9881c.reset_gpio_num ili9881c.reset_level]
    let tr := tr ++ [Event.vTaskDelay 10]
    let tr := tr ++ [Event.gpio_set_level ili9881c.reset_gpio_num (!ili9881c.reset_level)]
    let tr := tr ++ [Event.vTaskDelay 10]
    ⟨K.ESP_OK, ili9881c, tr⟩
  else
    let r := esp_lcd_panel_io_tx_param E tr io K.LCD_CMD_SWRESET [] 0
    if r.1 ≠ K.ESP_OK then ⟨r.1, ili9881c, r.2⟩ else
    let tr := r.2 ++ [Event.vTaskDelay 20]
    ⟨K.ESP_OK, ili9881c, tr⟩

/-- The `for` loop of `panel_ili9881c_init` over the entries still to send:
the first failing write ends the function with the transport's code
(`some err`); `none` means the loop ran to its end. -/
def init_cmds_loop (K : IdfDefs) (E : Env) (io : Nat) :
    List ili9881c_lcd_init_cmd_t → List Event → Option esp_err_t × List Event
  | [], tr => (none, tr)
  | c :: rest, tr =>
    let r := esp_lcd_panel_io_tx_param E tr io c.cmd c.data c.data_bytes
    if r.1 ≠ K.ESP_OK then (some r.1, r.2) else init_cmds_loop K E io rest r.2

/-- The body of `panel_ili9881c_init` as a function of its two locals
`init_cmds` and `init_cmds_size`. -/
def panel_ili9881c_init_body (K : IdfDefs) (E : Env) (tr : List Event)
    (ili9881c : ili9881c_panel_t) (init_cmds : List ili9881c_lcd_init_cmd_t)
    (init_cmds_size : Nat) : OpResult :=
  let io := ili9881c.io
  match init_cmds_loop K E io (init_cmds.take init_cmds_size) tr with
  | (some err, tr) => ⟨err, ili9881c, tr⟩
  | (none, tr) =>
    let r := esp_lcd_panel_io_tx_param E tr io 0xFF [0x98, 0x81, 0x00] 3
    if r.1 ≠ K.ESP_OK then ⟨r.1, ili9881c, r.2⟩ else
    let r := esp_lcd_panel_io_tx_param E r.2 io K.LCD_CMD_SLPOUT [] 0
    if r.1 ≠ K.ESP_OK then ⟨r.1, ili9881c, r.2⟩ else
    let tr := r.2 ++ [Event.vTaskDelay 120]
    let r := esp_lcd_panel_io_tx_param E tr io K.LCD_CMD_MADCTL [ili9881c.madctl_val] 1
    if r.1 ≠ K.ESP_OK then ⟨r.1, ili9881c, r.2⟩ else
    let r := esp_lcd_panel_io_tx_param E r.2 io K.LCD_CMD_COLMOD [ili9881c.colmod_val] 1
    if r.1 ≠ K.ESP_OK then ⟨r.1, ili9881c, r.2⟩ else
    ⟨K.ESP_OK, ili9881c, r.2⟩

/-- The function `panel_ili9881c_init`: `init_cmds` is the default table and
`init_cmds_size` its entry count stored in a `uint16_t`. -/
def panel_ili9881c_init (K : IdfDefs) (E : Env) (tr : List Event)
    (ili9881c : ili9881c_panel_t) : OpResult :=
  panel_ili9881c_init_body K E tr ili9881c vendor_specific_init_code_default
    (vendor_specific_init_code_default.length % 2 ^ 16)

/-- The function `panel_ili9881c_invert_color`. -/
def panel_ili9881c_invert_color (K : IdfDefs) (E : Env) (tr : List Event)
    (ili9881c : ili9881c_panel_t) (invert_color_data : Bool) : OpResult :=
  let io := ili9881c.io
  let command := if invert_color_data then K.LCD_CMD_INVON else K.LCD_CMD_INVOFF
  let r := esp_lcd_panel_io_tx_param E tr io command [] 0
  if r.1 ≠ K.ESP_OK then ⟨r.1, ili9881c, r.2⟩ else
  ⟨K.ESP_OK, ili9881c, r.2⟩

/-- The function `panel_ili9881c_mirror`. -/
def panel_ili9881c_mirror (K : IdfDefs) (E : Env) (tr : List Event)
    (ili9881c : ili9881c_panel_t) (mirror_x mirror_y : Bool) : OpResult :=
  let io := ili9881c.io
  let ili9881c := if mirror_x then
      { ili9881c with madctl_val := (ili9881c.madctl_val ||| K.LCD_CMD_MX_BIT) % 256 }
    else
      { ili9881c with madctl_val := (ili9881c.madctl_val &&& int_not K.LCD_CMD_MX_BIT) % 256 }
  let ili9881c := if mirror_y then
      { ili9881c with madctl_val := (ili9881c.madctl_val ||| K.LCD_CMD_MY_BIT) % 256 }
    else
      { ili9881c with madctl_val := (ili9881c.madctl_val &&& int_not K.LCD_CMD_MY_BIT) % 256 }
  let r := esp_lcd_panel_io_tx_param E tr io K.LCD_CMD_MADCTL [ili9881c.madctl_val] 1
  if r.1 ≠ K.ESP_OK then ⟨r.1, ili9881c, r.2⟩ else
  ⟨K.ESP_OK, ili9881c, r.2⟩

/-- The function `panel_ili9881c_swap_xy`. -/
def panel_ili9881c_swap_xy (K : IdfDefs) (E : Env) (tr : List Event)
    (ili9881c : ili9881c_panel_t) (swap_axes : Bool) : OpResult :=
  let io := ili9881c.io
  let ili9881c := if swap_axes then
      { ili9881c with madctl_val := (ili9881c.madctl_val ||| K.LCD_CMD_MV_BIT) % 256 }
    else
      { ili9881c with madctl_val := (ili9881c.madctl_val &&& int_not K.LCD_CMD_MV_BIT) % 256 }
  let r := esp_lcd_panel_io_tx_param E tr io K.LCD_CMD_MADCTL [ili9881c.madctl_val] 1
  if r.1 ≠ K.ESP_OK then ⟨r.1, ili9881c, r.2⟩ else
  ⟨K.ESP_OK, ili9881c, r.2⟩

/-- The function `panel_ili9881c_set_gap`. -/
def panel_ili9881c_set_gap (K : IdfDefs) (tr : List Event)
    (ili9881c : ili9881c_panel_t) (x_gap y_gap : Int) : OpResult :=
  let ili9881c := { ili9881c with x_gap := x_gap }
  let ili9881c := { ili9881c with y_gap := y_gap }
  ⟨K.ESP_OK, ili9881c, tr⟩

/-- The function `panel_ili9881c_disp_on_off`. -/
def panel_ili9881c_disp_on_off (K : IdfDefs) (E : Env) (tr : List Event)
    (ili9881c : ili9881c_panel_t) (on_off : Bool) : OpResult :=
  let io := ili9881c.io
  let command := if on_off then K.LCD_CMD_DISPON else K.LCD_CMD_DISPOFF
  let r := esp_lcd_panel_io_tx_param E tr io command [] 0
  if r.1 ≠ K.ESP_OK then ⟨r.1, ili9881c, r.2⟩ else
  ⟨K.ESP_OK, ili9881c, r.2⟩

/-- The function `panel_ili9881c_sleep`. -/
def panel_ili9881c_sleep (K : IdfDefs) (E : Env) (tr : List Event)
    (ili9881c : ili9881c_panel_t) (sleep : Bool) : OpResult :=
  let io := ili9881c.io
  let command := if sleep then K.LCD_CMD_SLPIN else K.LCD_CMD_SLPOUT
  let r := esp_lcd_panel_io_tx_param E tr io command [] 0
  if r.1 ≠ K.ESP_OK then ⟨r.1, ili9881c, r.2⟩ else
  let tr := r.2 ++ [Event.vTaskDelay 100]
  ⟨K.ESP_OK, ili9881c, tr⟩

/-! ## Vocabulary of the statements -/

/-- A configuration the constructor accepts: the colour order is one of the
two `case` labels and the pixel width one of the three. -/
def supported_config (K : IdfDefs) (cfg : esp_lcd_panel_dev_config_t) : Prop :=
  (cfg.rgb_ele_order = K.LCD_RGB_ELEMENT_ORDER_RGB
      ∨ cfg.rgb_ele_order = K.LCD_RGB_ELEMENT_ORDER_BGR)
    ∧ (cfg.bits_per_pixel = 16 ∨ cfg.bits_per_pixel = 18 ∨ cfg.bits_per_pixel = 24)

instance (K : IdfDefs) (cfg : esp_lcd_panel_dev_config_t) :
    Decidable (supported_config K cfg) := by
  unfold supported_config
  infer_instance

/-- Calls on the panel IO transport. -/
def Event.is_transport : Event → Bool
  | .tx_param _ _ _ _ => true
  | .rx_param _ _ _ => true
  | _ => false

/-- Calls on the GPIO driver. -/
def Event.is_gpio : Event → Bool
  | .gpio_config _ => true
  | .gpio_reset_pin _ => true
  | .gpio_set_level _ _ => true
  | _ => false

/-- The instance the constructor produces for a supported configuration. -/
def seeded_panel (K : IdfDefs) (io : Nat) (cfg : esp_lcd_panel_dev_config_t) :
    ili9881c_panel_t :=
  { io := io
    reset_gpio_num := cfg.reset_gpio_num
    x_gap := 0
    y_gap := 0
    madctl_val := if cfg.rgb_ele_order = K.LCD_RGB_ELEMENT_ORDER_RGB then 0
      else K.LCD_CMD_BGR_BIT % 256
    colmod_val := if cfg.bits_per_pixel = 16 then 0x55
      else if cfg.bits_per_pixel = 18 then 0x66 else 0x77
    init_cmds_size := 0
    reset_level := cfg.reset_active_high }

/-- The transport write that sends one table entry. -/
def init_cmd_event (io : Nat) (c : ili9881c_lcd_init_cmd_t) : Event :=
  Event.tx_param io c.cmd c.data c.data_bytes

/-- The four writes `panel_ili9881c_init` makes after the table, as
(opcode, parameter bytes, byte count). -/
def init_trailing_writes (K : IdfDefs) (s : ili9881c_panel_t) : List (Int × List Nat × Nat) :=
  [(0xFF, [0x98, 0x81, 0x00], 3), (K.LCD_CMD_SLPOUT, [], 0),
   (K.LCD_CMD_MADCTL, [s.madctl_val], 1), (K.LCD_CMD_COLMOD, [s.colmod_val], 1)]

/-- The write sequence of a complete `panel_ili9881c_init` over the table
`cmds`. -/
def init_writes_of (K : IdfDefs) (s : ili9881c_panel_t) (cmds : List ili9881c_lcd_init_cmd_t) :
    List (Int × List Nat × Nat) :=
  cmds.map (fun c => (c.cmd, c.data, c.data_bytes)) ++ init_trailing_writes K s

/-- The write sequence W of a complete `panel_ili9881c_init`: the table, then
page-0 select, SLPOUT, MADCTL, COLMOD. -/
def init_writes (K : IdfDefs) (s : ili9881c_panel_t) : List (Int × List Nat × Nat) :=
  init_writes_of K s vendor_specific_init_code_default

/-- The transport write for an element of `init_writes`. -/
def tx_event (io : Nat) (w : Int × List Nat × Nat) : Event :=
  Event.tx_param io w.1 w.2.1 w.2.2

/-- The events that precede write number `j` of `init_writes_of` in a run that
gets that far: the first `j` writes, with the 120 ms delay in its place after
SLPOUT (write number `cmds.length + 1`) once that write is behind. -/
def events_before_of (K : IdfDefs) (s : ili9881c_panel_t)
    (cmds : List ili9881c_lcd_init_cmd_t) (j : Nat) : List Event :=
  if j ≤ cmds.length + 1 then
    ((init_writes_of K s cmds).take j).map (tx_event s.io)
  else
    ((init_writes_of K s cmds).take (cmds.length + 2)).map (tx_event s.io)
      ++ [Event.vTaskDelay 120]
      ++ (((init_writes_of K s cmds).take j).drop (cmds.length + 2)).map (tx_event s.io)

/-- The position of SLPOUT in `init_writes`. -/
def slpout_index : Nat := vendor_specific_init_code_default.length + 1

/-- The events that precede write number `j` of `init_writes`. -/
def events_before (K : IdfDefs) (s : ili9881c_panel_t) (j : Nat) : List Event :=
  events_before_of K s vendor_specific_init_code_default j

/-- The value `panel_ili9881c_mirror` leaves in `madctl_val`: the register
after the two `if` statements on `mirror_x` and `mirror_y`. -/
def madctl_after_mirror (K : IdfDefs) (madctl_val : Nat) (mirror_x mirror_y : Bool) : Nat :=
  let v := if mirror_x then (madctl_val ||| K.LCD_CMD_MX_BIT) % 256
    else (madctl_val &&& int_not K.LCD_CMD_MX_BIT) % 256
  if mirror_y then (v ||| K.LCD_CMD_MY_BIT) % 256
    else (v &&& int_not K.LCD_CMD_MY_BIT) % 256

/-- The value `panel_ili9881c_swap_xy` leaves in `madctl_val`. -/
def madctl_after_swap_xy (K : IdfDefs) (madctl_val : Nat) (swap_axes : Bool) : Nat :=
  if swap_axes then (madctl_val ||| K.LCD_CMD_MV_BIT) % 256
    else (madctl_val &&& int_not K.LCD_CMD_MV_BIT) % 256

/-- A platform on which every call succeeds; reads return one zero byte. -/
def env_ok : Env :=
  ⟨fun _ => true, fun _ _ => 0, fun _ _ _ _ _ => 0, fun _ _ _ _ => (0, [0])⟩

/-- A platform whose allocator returns `NULL`. -/
def env_no_mem : Env :=
  { env_ok with calloc := fun _ => false }

/-- A platform whose transport rejects every write with `ESP_FAIL` (-1). -/
def env_tx_fail : Env :=
  { env_ok with tx_param := fun _ _ _ _ _ => -1 }

/-- A platform whose transport accepts the first write it sees and rejects
every later one with `ESP_FAIL` (-1). -/
def env_tx_fail_after_first : Env :=
  { env_ok with tx_param := fun h _ _ _ _ => if h = [] then 0 else -1 }

/-- A platform whose GPIO driver rejects `gpio_config` with `ESP_FAIL` (-1). -/
def env_gpio_fail : Env :=
  { env_ok with gpio_config := fun _ _ => -1 }

/-- A platform whose transport rejects every write and every read with
`ESP_FAIL` (-1). -/
def env_transport_fail : Env :=
  { env_ok with tx_param := fun _ _ _ _ _ => -1, rx_param := fun _ _ _ _ => (-1, []) }

/-- A call through the operation table `base` of an instance, other than
`del`. -/
inductive PanelCall where
  | reset
  | init
  | invert_color (invert_color_data : Bool)
  | mirror (mirror_x mirror_y : Bool)
  | swap_xy (swap_axes : Bool)
  | set_gap (x_gap y_gap : Int)
  | disp_on_off (on_off : Bool)
  | disp_sleep (sleep : Bool)
  deriving DecidableEq, Repr

/-- Dispatch of one call to the function the constructor put in `base`. -/
def panel_call (K : IdfDefs) (E : Env) (tr : List Event) (ili9881c : ili9881c_panel_t) :
    PanelCall → OpResult
  | .reset => panel_ili9881c_reset K E tr ili9881c
  | .init => panel_ili9881c_init K E tr ili9881c
  | .invert_color b => panel_ili9881c_invert_color K E tr ili9881c b
  | .mirror x y => panel_ili9881c_mirror K E tr ili9881c x y
  | .swap_xy b => panel_ili9881c_swap_xy K E tr ili9881c b
  | .set_gap x y => panel_ili9881c_set_gap K tr ili9881c x y
  | .disp_on_off b => panel_ili9881c_disp_on_off K E tr ili9881c b
  | .disp_sleep b => panel_ili9881c_sleep K E tr ili9881c b

/-- A caller making the given calls one after the other on the same instance,
going on whatever each call returns: the instance and the trace at the end. -/
def panel_calls (K : IdfDefs) (E : Env) :
    List PanelCall → List Event → ili9881c_panel_t → ili9881c_panel_t × List Event
  | [], tr, ili9881c => (ili9881c, tr)
  | c :: rest, tr, ili9881c =>
    panel_calls K E rest (panel_call K E tr ili9881c c).trace
      (panel_call K E tr ili9881c c).panel

/-- The calls of a complete `panel_ili9881c_init` on the instance `s`: one
write per table entry, page-0 select, SLPOUT, the 120 ms delay, MADCTL and
COLMOD with the cached bytes. -/
def init_events (K : IdfDefs) (s : ili9881c_panel_t) : List Event :=
  vendor_specific_init_code_default.map (init_cmd_event s.io)
    ++ [Event.tx_param s.io 0xFF [0x98, 0x81, 0x00] 3,
        Event.tx_param s.io K.LCD_CMD_SLPOUT [] 0,
        Event.vTaskDelay 120,
        Event.tx_param s.io K.LCD_CMD_MADCTL [s.madctl_val] 1,
        Event.tx_param s.io K.LCD_CMD_COLMOD [s.colmod_val] 1]

/-- The bits `madctl_val` can hold: colour order, axis swap and the two
mirror bits. -/
def madctl_mask (K : IdfDefs) : Nat :=
  K.LCD_CMD_BGR_BIT ||| K.LCD_CMD_MV_BIT ||| K.LCD_CMD_MX_BIT ||| K.LCD_CMD_MY_BIT

/-- A page-select entry of the table: opcode 0xFF. -/
def ili9881c_lcd_init_cmd_t.is_page_select (c : ili9881c_lcd_init_cmd_t) : Bool :=
  c.cmd == 0xFF

/-- A page-select write on the transport: opcode 0xFF with three bytes, the
first two being the vendor signature 0x98, 0x81. -/
def Event.is_page_select : Event → Bool
  | .tx_param _ lcd_cmd param param_size =>
    lcd_cmd == 0xFF && param_size == 3 && param.length == 3 && param.take 2 == [0x98, 0x81]
  | _ => false

/-- An entry of the table as the sources lay it out: opcode in one byte, the
declared size equal to the number of bytes and at most 255, every byte in
0..255, three bytes starting with 0x98, 0x81 for opcode 0xFF and one byte for
any other opcode. -/
def ili9881c_lcd_init_cmd_t.well_formed (c : ili9881c_lcd_init_cmd_t) : Prop :=
  0 ≤ c.cmd ∧ c.cmd ≤ 255
    ∧ c.data_bytes = c.data.length ∧ c.data_bytes ≤ 255
    ∧ (∀ b ∈ c.data, b < 256)
    ∧ (c.cmd = 0xFF → c.data.length = 3 ∧ c.data.take 2 = [0x98, 0x81])
    ∧ (c.cmd ≠ 0xFF → c.data.length = 1)

instance (c : ili9881c_lcd_init_cmd_t) : Decidable c.well_formed := by
  unfold ili9881c_lcd_init_cmd_t.well_formed
  infer_instance

/-! ## Construction -/

theorem new_panel_err_ret (K : IdfDefs) (tr : List Event) (p : ili9881c_panel_t)
    (ret : esp_err_t) : (new_panel_err K tr p ret).ret = ret := rfl

theorem new_panel_err_ret_panel (K : IdfDefs) (tr : List Event) (p : ili9881c_panel_t)
    (ret : esp_err_t) : (new_panel_err K tr p ret).ret_panel = none := rfl

/-- On the error path the instance handed to `panel_ili9881c_del` is the one
`calloc` returned, whose `reset_gpio_num` is still 0: the pin released is 0. -/
theorem new_panel_err_trace (K : IdfDefs) (tr : List Event) (p : ili9881c_panel_t)
    (ret : esp_err_t) (hp : p.reset_gpio_num = 0) :
    (new_panel_err K tr p ret).trace = tr ++ [Event.gpio_reset_pin 0, Event.free] := by
  simp [new_panel_err, panel_ili9881c_del, hp]

theorem new_panel_finish_eq (K : IdfDefs) (E : Env) (tr : List Event) (io : Nat)
    (cfg : esp_lcd_panel_dev_config_t) (p : ili9881c_panel_t) :
    new_panel_finish K E tr io cfg p =
      ⟨K.ESP_OK,
        some { p with io := io, reset_gpio_num := cfg.reset_gpio_num,
                      reset_level := cfg.reset_active_high },
        tr ++ [Event.tx_param io 0xFF [0x98, 0x81, 0x01] 3, Event.rx_param io 0x00 1,
               Event.rx_param io 0x01 1, Event.rx_param io 0x02 1]⟩ := by
  simp [new_panel_finish, esp_lcd_panel_io_tx_param, esp_lcd_panel_io_rx_param]

/-- With non-null arguments, a successful allocation and a reset line that is
absent or configured without error, the constructor is the two `switch`
statements run on the zeroed instance. -/
theorem new_panel_reaches_switch (K : IdfDefs) (E : Env) (tr : List Event) (io : Nat)
    (cfg : esp_lcd_panel_dev_config_t) (hio : io ≠ 0) (halloc : E.calloc tr = true)
    (hgpio : cfg.reset_gpio_num ≥ 0 →
      E.gpio_config (tr ++ [Event.calloc]) (reset_pin_bit_mask cfg.reset_gpio_num) = K.ESP_OK) :
    esp_lcd_new_panel_ili9881c K E tr io (some cfg) true =
      new_panel_rgb_ele_order K E
        (tr ++ [Event.calloc] ++
          (if cfg.reset_gpio_num ≥ 0 then
            [Event.gpio_config (reset_pin_bit_mask cfg.reset_gpio_num)] else []))
        io cfg calloc_panel := by
  unfold esp_lcd_new_panel_ili9881c
  by_cases hpin : cfg.reset_gpio_num ≥ 0
  · simp [hio, halloc, hpin, hgpio hpin]
  · simp [hio, halloc, hpin]

theorem new_panel_supported (K : IdfDefs) (E : Env) (tr : List Event) (io : Nat)
    (cfg : esp_lcd_panel_dev_config_t) (hcfg : supported_config K cfg) :
    new_panel_rgb_ele_order K E tr io cfg calloc_panel =
      ⟨K.ESP_OK, some (seeded_panel K io cfg),
        tr ++ [Event.tx_param io 0xFF [0x98, 0x81, 0x01] 3, Event.rx_param io 0x00 1,
               Event.rx_param io 0x01 1, Event.rx_param io 0x02 1]⟩ := by
  obtain ⟨horder, hbpp⟩ := hcfg
  unfold new_panel_rgb_ele_order new_panel_bits_per_pixel
  simp only [new_panel_finish_eq, seeded_panel, calloc_panel]
  rcases horder with ho | ho <;> rcases hbpp with hb | hb | hb <;>
    by_cases hrgb : cfg.rgb_ele_order = K.LCD_RGB_ELEMENT_ORDER_RGB <;>
    simp_all

theorem new_panel_unsupported (K : IdfDefs) (E : Env) (tr : List Event) (io : Nat)
    (cfg : esp_lcd_panel_dev_config_t) (hcfg : ¬ supported_config K cfg) :
    new_panel_rgb_ele_order K E tr io cfg calloc_panel =
      ⟨K.ESP_ERR_NOT_SUPPORTED, none, tr ++ [Event.gpio_reset_pin 0, Event.free]⟩ := by
  unfold supported_config at hcfg
  unfold new_panel_rgb_ele_order new_panel_bits_per_pixel
  by_cases h1 : cfg.rgb_ele_order = K.LCD_RGB_ELEMENT_ORDER_RGB <;>
    by_cases h2 : cfg.rgb_ele_order = K.LCD_RGB_ELEMENT_ORDER_BGR <;>
    by_cases h3 : cfg.bits_per_pixel = 16 <;>
    by_cases h4 : cfg.bits_per_pixel = 18 <;>
    by_cases h5 : cfg.bits_per_pixel = 24 <;>
    simp_all [new_panel_err, panel_ili9881c_del, calloc_panel]

/-- C1, as stated, fails: with a supported configuration (BGR, 24 bits per
pixel, reset line 5 configured without error) and non-null arguments, the
constructor returns `ESP_ERR_NO_MEM` and stores no instance when `calloc`
returns `NULL`. -/
theorem new_panel_no_mem_despite_supported_config :
    supported_config esp_idf ⟨5, 1, 24, true⟩
      ∧ env_no_mem.gpio_config [Event.calloc] (reset_pin_bit_mask 5) = esp_idf.ESP_OK
      ∧ (esp_lcd_new_panel_ili9881c esp_idf env_no_mem [] 1 (some ⟨5, 1, 24, true⟩) true).ret
          = esp_idf.ESP_ERR_NO_MEM
      ∧ (esp_lcd_new_panel_ili9881c esp_idf env_no_mem [] 1 (some ⟨5, 1, 24, true⟩) true).ret
          ≠ esp_idf.ESP_OK
      ∧ (esp_lcd_new_panel_ili9881c esp_idf env_no_mem [] 1 (some ⟨5, 1, 24, true⟩)
          true).ret_panel = none := by
  refine ⟨by decide, rfl, rfl, by decide, rfl⟩

/-- C1 (amended): for non-null `io` and `ret_panel`, a successful allocation,
a reset line that is absent or configured without error, a colour order of RGB
or BGR and 16, 18 or 24 bits per pixel, and whatever the transport answers,
the constructor returns `ESP_OK` and stores an instance with `madctl_val` 0
for RGB and exactly `LCD_CMD_BGR_BIT` for BGR, `colmod_val` 0x55 / 0x66 / 0x77
for 16 / 18 / 24 bits per pixel, both gaps 0, and `reset_gpio_num` and
`reset_level` taken from the configuration.  The two assumptions on the header
say that the `case` labels differ and that the colour-order bit lies in the
register byte. -/
theorem new_panel_seeds_registers (K : IdfDefs) (E : Env) (tr : List Event) (io : Nat)
    (cfg : esp_lcd_panel_dev_config_t)
    (hlabels : K.LCD_RGB_ELEMENT_ORDER_RGB ≠ K.LCD_RGB_ELEMENT_ORDER_BGR)
    (hbit : K.LCD_CMD_BGR_BIT < 256)
    (hio : io ≠ 0) (halloc : E.calloc tr = true)
    (hgpio : cfg.reset_gpio_num ≥ 0 →
      E.gpio_config (tr ++ [Event.calloc]) (reset_pin_bit_mask cfg.reset_gpio_num) = K.ESP_OK)
    (hcfg : supported_config K cfg) :
    (esp_lcd_new_panel_ili9881c K E tr io (some cfg) true).ret = K.ESP_OK
      ∧ ∃ p, (esp_lcd_new_panel_ili9881c K E tr io (some cfg) true).ret_panel = some p
        ∧ (cfg.rgb_ele_order = K.LCD_RGB_ELEMENT_ORDER_RGB → p.madctl_val = 0)
        ∧ (cfg.rgb_ele_order = K.LCD_RGB_ELEMENT_ORDER_BGR → p.madctl_val = K.LCD_CMD_BGR_BIT)
        ∧ (cfg.bits_per_pixel = 16 → p.colmod_val = 0x55)
        ∧ (cfg.bits_per_pixel = 18 → p.colmod_val = 0x66)
        ∧ (cfg.bits_per_pixel = 24 → p.colmod_val = 0x77)
        ∧ p.x_gap = 0 ∧ p.y_gap = 0
        ∧ p.reset_gpio_num = cfg.reset_gpio_num
        ∧ p.reset_level = cfg.reset_active_high := by
  rw [new_panel_reaches_switch K E tr io cfg hio halloc hgpio, new_panel_supported K E _ io cfg hcfg]
  refine ⟨rfl, seeded_panel K io cfg, rfl, ?_, ?_, ?_, ?_, ?_, rfl, rfl, rfl, rfl⟩
  · intro h
    simp [seeded_panel, h]
  · intro h
    have hne : cfg.rgb_ele_order ≠ K.LCD_RGB_ELEMENT_ORDER_RGB := by
      rw [h]
      exact fun e => hlabels e.symm
    simp [seeded_panel, hne, Nat.mod_eq_of_lt hbit]
  · intro h
    simp [seeded_panel, h]
  · intro h
    simp [seeded_panel, h]
  · intro h
    simp [seeded_panel, h]

/-- C1 (amended) at a concrete platform: ESP-IDF values, every call
succeeding, BGR at 16 bits per pixel with active-high reset line 5.  The
stored instance caches 0x08 and 0x55. -/
theorem new_panel_seeds_registers_witness :
    (esp_lcd_new_panel_ili9881c esp_idf env_ok [] 1 (some ⟨5, 1, 16, true⟩) true).ret
        = esp_idf.ESP_OK
      ∧ ∃ p, (esp_lcd_new_panel_ili9881c esp_idf env_ok [] 1 (some ⟨5, 1, 16, true⟩)
            true).ret_panel = some p
        ∧ p.madctl_val = 0x08 ∧ p.colmod_val = 0x55 ∧ p.x_gap = 0 ∧ p.y_gap = 0
        ∧ p.reset_gpio_num = 5 ∧ p.reset_level = true := by
  obtain ⟨hret, p, hp, -, hbgr, h16, -, -, hx, hy, hpin, hlevel⟩ :=
    new_panel_seeds_registers esp_idf env_ok [] 1 ⟨5, 1, 16, true⟩ (by decide) (by decide)
      (by decide) rfl (fun _ => rfl) (by decide)
  exact ⟨hret, p, hp, hbgr rfl, h16 rfl, hx, hy, hpin, hlevel⟩

/-- C2, as stated, fails: with non-null arguments, no reset line and a
supported configuration (RGB, 16 bits per pixel) the constructor does not
succeed when `calloc` returns `NULL`; and with an unsupported pixel width (12)
it then returns `ESP_ERR_NO_MEM`, not `ESP_ERR_NOT_SUPPORTED`. -/
theorem new_panel_no_mem_breaks_iff :
    supported_config esp_idf ⟨-1, 0, 16, false⟩
      ∧ (esp_lcd_new_panel_ili9881c esp_idf env_no_mem [] 1 (some ⟨-1, 0, 16, false⟩) true).ret
          ≠ esp_idf.ESP_OK
      ∧ ¬ supported_config esp_idf ⟨-1, 0, 12, false⟩
      ∧ (esp_lcd_new_panel_ili9881c esp_idf env_no_mem [] 1 (some ⟨-1, 0, 12, false⟩) true).ret
          ≠ esp_idf.ESP_ERR_NOT_SUPPORTED := by
  refine ⟨by decide, by decide, by decide, by decide⟩

/-- C2 (amended): with non-null arguments, a successful allocation and a reset
line that is absent or configured without error, the constructor returns
`ESP_OK` exactly when the colour order is RGB or BGR and the pixel width is
16, 18 or 24; for every other configuration it returns
`ESP_ERR_NOT_SUPPORTED`, stores nothing through `ret_panel` and makes no call
on the transport.  The assumption on the header says that
`ESP_ERR_NOT_SUPPORTED` is an error code. -/
theorem new_panel_succeeds_iff_supported (K : IdfDefs) (E : Env) (tr : List Event) (io : Nat)
    (cfg : esp_lcd_panel_dev_config_t)
    (herr : K.ESP_ERR_NOT_SUPPORTED ≠ K.ESP_OK)
    (hio : io ≠ 0) (halloc : E.calloc tr = true)
    (hgpio : cfg.reset_gpio_num ≥ 0 →
      E.gpio_config (tr ++ [Event.calloc]) (reset_pin_bit_mask cfg.reset_gpio_num) = K.ESP_OK) :
    ((esp_lcd_new_panel_ili9881c K E tr io (some cfg) true).ret = K.ESP_OK
        ↔ supported_config K cfg)
      ∧ (¬ supported_config K cfg →
          (esp_lcd_new_panel_ili9881c K E tr io (some cfg) true).ret = K.ESP_ERR_NOT_SUPPORTED
          ∧ (esp_lcd_new_panel_ili9881c K E tr io (some cfg) true).ret_panel = none
          ∧ ∃ evs, (esp_lcd_new_panel_ili9881c K E tr io (some cfg) true).trace = tr ++ evs
              ∧ ∀ e ∈ evs, e.is_transport = false) := by
  rw [new_panel_reaches_switch K E tr io cfg hio halloc hgpio]
  have hbad : ¬ supported_config K cfg →
      (new_panel_rgb_ele_order K E
          (tr ++ [Event.calloc] ++
            (if cfg.reset_gpio_num ≥ 0 then
              [Event.gpio_config (reset_pin_bit_mask cfg.reset_gpio_num)] else []))
          io cfg calloc_panel).ret = K.ESP_ERR_NOT_SUPPORTED
      ∧ (new_panel_rgb_ele_order K E
          (tr ++ [Event.calloc] ++
            (if cfg.reset_gpio_num ≥ 0 then
              [Event.gpio_config (reset_pin_bit_mask cfg.reset_gpio_num)] else []))
          io cfg calloc_panel).ret_panel = none
      ∧ ∃ evs, (new_panel_rgb_ele_order K E
          (tr ++ [Event.calloc] ++
            (if cfg.reset_gpio_num ≥ 0 then
              [Event.gpio_config (reset_pin_bit_mask cfg.reset_gpio_num)] else []))
          io cfg calloc_panel).trace = tr ++ evs
          ∧ ∀ e ∈ evs, e.is_transport = false := by
    intro hcfg
    rw [new_panel_unsupported K E _ io cfg hcfg]
    refine ⟨rfl, rfl, [Event.calloc] ++
      (if cfg.reset_gpio_num ≥ 0 then
        [Event.gpio_config (reset_pin_bit_mask cfg.reset_gpio_num)] else [])
      ++ [Event.gpio_reset_pin 0, Event.free], by simp, ?_⟩
    intro e he
    by_cases hpin : cfg.reset_gpio_num ≥ 0
    · simp [hpin] at he
      rcases he with rfl | rfl | rfl | rfl <;> rfl
    · simp [hpin] at he
      rcases he with rfl | rfl | rfl <;> rfl
  refine ⟨⟨?_, ?_⟩, hbad⟩
  · intro hret
    by_contra hcfg
    exact herr ((hbad hcfg).1.symm.trans hret)
  · intro hcfg
    rw [new_panel_supported K E _ io cfg hcfg]

/-- C2 (amended) at a concrete platform: ESP-IDF values, every call
succeeding, RGB at 12 bits per pixel with reset line 5. -/
theorem new_panel_succeeds_iff_supported_witness :
    ¬ supported_config esp_idf ⟨5, 0, 12, false⟩
      ∧ (esp_lcd_new_panel_ili9881c esp_idf env_ok [] 1 (some ⟨5, 0, 12, false⟩) true).ret
          = esp_idf.ESP_ERR_NOT_SUPPORTED
      ∧ (esp_lcd_new_panel_ili9881c esp_idf env_ok [] 1 (some ⟨5, 0, 12, false⟩)
          true).ret_panel = none := by
  have hcfg : ¬ supported_config esp_idf ⟨5, 0, 12, false⟩ := by decide
  have h := (new_panel_succeeds_iff_supported esp_idf env_ok [] 1 ⟨5, 0, 12, false⟩
    (by decide) (by decide) rfl (fun _ => rfl)).2 hcfg
  exact ⟨hcfg, h.1, h.2.1⟩

/-- C3 (the code at the failing inputs): when validation fails, the error path
releases GPIO 0, not the reset line of the configuration.  With reset line 5
configured without error and 12 bits per pixel the constructor calls
`gpio_reset_pin(0)` and never `gpio_reset_pin(5)`; with no reset line
(`reset_gpio_num = -1`) and 12 bits per pixel it still calls
`gpio_reset_pin(0)`. -/
theorem new_panel_validation_failure_releases_pin_zero :
    (esp_lcd_new_panel_ili9881c esp_idf env_ok [] 1 (some ⟨5, 0, 12, false⟩) true).ret
        = esp_idf.ESP_ERR_NOT_SUPPORTED
      ∧ (esp_lcd_new_panel_ili9881c esp_idf env_ok [] 1 (some ⟨5, 0, 12, false⟩) true).trace
        = [Event.calloc, Event.gpio_config (reset_pin_bit_mask 5), Event.gpio_reset_pin 0,
           Event.free]
      ∧ Event.gpio_reset_pin 5 ∉
        (esp_lcd_new_panel_ili9881c esp_idf env_ok [] 1 (some ⟨5, 0, 12, false⟩) true).trace
      ∧ (esp_lcd_new_panel_ili9881c esp_idf env_ok [] 1 (some ⟨-1, 0, 12, false⟩) true).ret
        = esp_idf.ESP_ERR_NOT_SUPPORTED
      ∧ (esp_lcd_new_panel_ili9881c esp_idf env_ok [] 1 (some ⟨-1, 0, 12, false⟩) true).trace
        = [Event.calloc, Event.gpio_reset_pin 0, Event.free] := by
  refine ⟨rfl, rfl, by decide, rfl, rfl⟩

/-! ## Initialisation -/

theorem init_cmds_loop_ok (K : IdfDefs) (E : Env) (io : Nat) :
    ∀ (cmds : List ili9881c_lcd_init_cmd_t) (tr : List Event),
      (∀ j c, cmds[j]? = some c →
        E.tx_param (tr ++ (cmds.take j).map (init_cmd_event io)) io c.cmd c.data c.data_bytes
          = K.ESP_OK) →
      init_cmds_loop K E io cmds tr = (none, tr ++ cmds.map (init_cmd_event io)) := by
  intro cmds
  induction cmds with
  | nil => intro tr _; simp [init_cmds_loop]
  | cons c rest ih =>
    intro tr h
    have h0 := h 0 c (by simp)
    simp only [List.take_zero, List.map_nil, List.append_nil] at h0
    have hrest := ih (tr ++ [init_cmd_event io c]) (by
      intro j c' hj
      have := h (j + 1) c' (by simpa using hj)
      simpa [List.append_assoc] using this)
    simp only [init_cmds_loop, esp_lcd_panel_io_tx_param, h0, ne_eq, not_true_eq_false,
      if_false]
    simpa [init_cmd_event, List.append_assoc] using hrest

theorem init_cmds_loop_fail (K : IdfDefs) (E : Env) (io : Nat) :
    ∀ (cmds : List ili9881c_lcd_init_cmd_t) (tr : List Event) (k : Nat)
      (c : ili9881c_lcd_init_cmd_t),
      cmds[k]? = some c →
      (∀ j c', j < k → cmds[j]? = some c' →
        E.tx_param (tr ++ (cmds.take j).map (init_cmd_event io)) io c'.cmd c'.data c'.data_bytes
          = K.ESP_OK) →
      E.tx_param (tr ++ (cmds.take k).map (init_cmd_event io)) io c.cmd c.data c.data_bytes
        ≠ K.ESP_OK →
      init_cmds_loop K E io cmds tr =
        (some (E.tx_param (tr ++ (cmds.take k).map (init_cmd_event io)) io c.cmd c.data
            c.data_bytes),
          tr ++ (cmds.take k).map (init_cmd_event io) ++ [init_cmd_event io c]) := by
  intro cmds
  induction cmds with
  | nil => intro tr k c hk; simp at hk
  | cons c0 rest ih =>
    intro tr k c hk hok hfail
    cases k with
    | zero =>
      simp only [List.getElem?_cons_zero, Option.some.injEq] at hk
      subst hk
      simp only [List.take_zero, List.map_nil, List.append_nil] at hfail ⊢
      simp [init_cmds_loop, esp_lcd_panel_io_tx_param, hfail, init_cmd_event]
    | succ k =>
      have h0 := hok 0 c0 (Nat.succ_pos k) (by simp)
      simp only [List.take_zero, List.map_nil, List.append_nil] at h0
      have hk' : rest[k]? = some c := by simpa using hk
      have hrest := ih (tr ++ [init_cmd_event io c0]) k c hk' (by
        intro j c' hj hjc
        have := hok (j + 1) c' (Nat.succ_lt_succ hj) (by simpa using hjc)
        simpa [List.append_assoc] using this)
        (by simpa [List.append_assoc] using hfail)
      simp only [init_cmds_loop, esp_lcd_panel_io_tx_param, h0, ne_eq, not_true_eq_false,
        if_false]
      simpa [init_cmd_event, List.append_assoc] using hrest

theorem init_table_length : vendor_specific_init_code_default.length = 195 := rfl

theorem init_cmds_size_covers_table :
    vendor_specific_init_code_default.take (vendor_specific_init_code_default.length % 2 ^ 16)
      = vendor_specific_init_code_default := by
  apply List.take_of_length_le
  rw [init_table_length]
  norm_num

theorem events_before_of_table (K : IdfDefs) (s : ili9881c_panel_t)
    (cmds : List ili9881c_lcd_init_cmd_t) (j : Nat) (hj : j ≤ cmds.length) :
    events_before_of K s cmds j = (cmds.take j).map (init_cmd_event s.io) := by
  unfold events_before_of init_writes_of
  rw [if_pos (by omega), List.take_append_of_le_length (by simpa using hj)]
  simp only [List.map_take, List.map_map]
  rfl

theorem init_writes_of_table (K : IdfDefs) (s : ili9881c_panel_t)
    (cmds : List ili9881c_lcd_init_cmd_t) (j : Nat) (hj : j < cmds.length) :
    (init_writes_of K s cmds)[j]? = some (cmds[j].cmd, cmds[j].data, cmds[j].data_bytes) := by
  unfold init_writes_of
  rw [List.getElem?_append_left (by simpa using hj)]
  simp [hj]

theorem init_writes_of_trailing (K : IdfDefs) (s : ili9881c_panel_t)
    (cmds : List ili9881c_lcd_init_cmd_t) (i : Nat) :
    (init_writes_of K s cmds)[cmds.length + i]? = (init_trailing_writes K s)[i]? := by
  unfold init_writes_of
  rw [List.getElem?_append_right (by simp)]
  simp

theorem events_before_of_trailing (K : IdfDefs) (s : ili9881c_panel_t)
    (cmds : List ili9881c_lcd_init_cmd_t) :
    events_before_of K s cmds (cmds.length + 1)
        = cmds.map (init_cmd_event s.io) ++ [Event.tx_param s.io 0xFF [0x98, 0x81, 0x00] 3]
      ∧ events_before_of K s cmds (cmds.length + 2)
        = cmds.map (init_cmd_event s.io) ++ [Event.tx_param s.io 0xFF [0x98, 0x81, 0x00] 3,
            Event.tx_param s.io K.LCD_CMD_SLPOUT [] 0, Event.vTaskDelay 120]
      ∧ events_before_of K s cmds (cmds.length + 3)
        = cmds.map (init_cmd_event s.io) ++ [Event.tx_param s.io 0xFF [0x98, 0x81, 0x00] 3,
            Event.tx_param s.io K.LCD_CMD_SLPOUT [] 0, Event.vTaskDelay 120,
            Event.tx_param s.io K.LCD_CMD_MADCTL [s.madctl_val] 1] := by
  have hlen : (cmds.map (fun c => (c.cmd, c.data, c.data_bytes))).length = cmds.length := by simp
  have htake : ∀ i, (init_writes_of K s cmds).take (cmds.length + i)
      = cmds.map (fun c => (c.cmd, c.data, c.data_bytes)) ++ (init_trailing_writes K s).take i := by
    intro i
    unfold init_writes_of
    rw [← hlen, List.take_append]
  have hdrop : ∀ (i : Nat) (l : List (Int × List Nat × Nat)),
      (cmds.map (fun c => (c.cmd, c.data, c.data_bytes)) ++ l).drop (cmds.length + i)
        = l.drop i := by
    intro i l
    rw [← hlen, List.drop_append]
  have hmap : cmds.map (fun c => tx_event s.io (c.cmd, c.data, c.data_bytes))
      = cmds.map (init_cmd_event s.io) := rfl
  refine ⟨?_, ?_, ?_⟩
  · unfold events_before_of
    rw [if_pos (by omega), htake 1]
    simp [init_trailing_writes, Function.comp_def, hmap]
    rfl
  · unfold events_before_of
    rw [if_neg (by omega), htake 2]
    simp [init_trailing_writes, Function.comp_def, hmap]
    exact ⟨rfl, rfl⟩
  · unfold events_before_of
    rw [if_neg (by omega), htake 2, htake 3, hdrop 2]
    simp [init_trailing_writes, Function.comp_def, hmap]
    exact ⟨rfl, rfl, rfl⟩

/-- The first failing write of `panel_ili9881c_init_body` ends the run: the
result is the transport's code and the trace stops at that write. -/
theorem init_body_first_failure (K : IdfDefs) (E : Env) (tr : List Event)
    (s : ili9881c_panel_t) (cmds : List ili9881c_lcd_init_cmd_t) (k : Nat)
    (w : Int × List Nat × Nat)
    (hk : (init_writes_of K s cmds)[k]? = some w)
    (hok : ∀ j w', j < k → (init_writes_of K s cmds)[j]? = some w' →
      E.tx_param (tr ++ events_before_of K s cmds j) s.io w'.1 w'.2.1 w'.2.2 = K.ESP_OK)
    (hfail : E.tx_param (tr ++ events_before_of K s cmds k) s.io w.1 w.2.1 w.2.2 ≠ K.ESP_OK) :
    panel_ili9881c_init_body K E tr s cmds cmds.length =
      ⟨E.tx_param (tr ++ events_before_of K s cmds k) s.io w.1 w.2.1 w.2.2, s,
        tr ++ events_before_of K s cmds k ++ [tx_event s.io w]⟩ := by
  have htab : ∀ j c, j < k → cmds[j]? = some c →
      E.tx_param (tr ++ (cmds.take j).map (init_cmd_event s.io)) s.io c.cmd c.data c.data_bytes
        = K.ESP_OK := by
    intro j c hj hc
    have hjl : j < cmds.length := (List.getElem?_eq_some_iff.mp hc).1
    have hc' : cmds[j] = c := (List.getElem?_eq_some_iff.mp hc).2
    have := hok j _ hj (init_writes_of_table K s cmds j hjl)
    rw [events_before_of_table K s cmds j (le_of_lt hjl), hc'] at this
    exact this
  unfold panel_ili9881c_init_body
  rw [List.take_length]
  dsimp only
  by_cases hkl : k < cmds.length
  · rw [init_writes_of_table K s cmds k hkl] at hk
    have hw : w = (cmds[k].cmd, cmds[k].data, cmds[k].data_bytes) := by
      simpa using hk.symm
    subst hw
    rw [events_before_of_table K s cmds k (le_of_lt hkl)] at hfail ⊢
    rw [init_cmds_loop_fail K E s.io cmds tr k cmds[k] (by simp [hkl]) htab hfail]
    rfl
  · obtain ⟨i, rfl⟩ : ∃ i, k = cmds.length + i := ⟨k - cmds.length, by omega⟩
    rw [init_writes_of_trailing] at hk
    have hloop := init_cmds_loop_ok K E s.io cmds tr (by
      intro j c hc
      exact htab j c (by have := (List.getElem?_eq_some_iff.mp hc).1; omega) hc)
    rw [hloop]
    obtain ⟨e1, e2, e3⟩ := events_before_of_trailing K s cmds
    have e0 := events_before_of_table K s cmds cmds.length (le_refl _)
    rw [List.take_length] at e0
    have ok0 : 0 < i → E.tx_param (tr ++ cmds.map (init_cmd_event s.io)) s.io 0xFF
        [0x98, 0x81, 0x00] 3 = K.ESP_OK := by
      intro h
      have := hok (cmds.length + 0) (0xFF, [0x98, 0x81, 0x00], 3) (by omega)
        (by rw [init_writes_of_trailing]; rfl)
      simpa only [Nat.add_zero, e0] using this
    have ok1 : 1 < i → E.tx_param (tr ++ (cmds.map (init_cmd_event s.io)
        ++ [Event.tx_param s.io 0xFF [0x98, 0x81, 0x00] 3])) s.io K.LCD_CMD_SLPOUT [] 0
        = K.ESP_OK := by
      intro h
      have := hok (cmds.length + 1) (K.LCD_CMD_SLPOUT, [], 0) (by omega)
        (by rw [init_writes_of_trailing]; rfl)
      simpa only [e1] using this
    have ok2 : 2 < i → E.tx_param (tr ++ (cmds.map (init_cmd_event s.io)
        ++ [Event.tx_param s.io 0xFF [0x98, 0x81, 0x00] 3,
            Event.tx_param s.io K.LCD_CMD_SLPOUT [] 0, Event.vTaskDelay 120])) s.io
        K.LCD_CMD_MADCTL [s.madctl_val] 1 = K.ESP_OK := by
      intro h
      have := hok (cmds.length + 2) (K.LCD_CMD_MADCTL, [s.madctl_val], 1) (by omega)
        (by rw [init_writes_of_trailing]; rfl)
      simpa only [e2] using this
    match i, hk, hfail, ok0, ok1, ok2 with
    | 0, hk, hfail, _, _, _ =>
      simp only [init_trailing_writes, List.getElem?_cons_zero, Option.some.injEq] at hk
      subst hk
      simp only [Nat.add_zero, e0] at hfail ⊢
      simp [esp_lcd_panel_io_tx_param, hfail, tx_event]
    | 1, hk, hfail, ok0, _, _ =>
      simp only [init_trailing_writes, List.getElem?_cons_succ, List.getElem?_cons_zero,
        Option.some.injEq] at hk
      subst hk
      have ok0 := ok0 (by omega)
      simp only [e1] at hfail ⊢
      simp only [List.append_assoc] at ok0 hfail
      simp [esp_lcd_panel_io_tx_param, hfail, ok0, tx_event]
    | 2, hk, hfail, ok0, ok1, _ =>
      simp only [init_trailing_writes, List.getElem?_cons_succ, List.getElem?_cons_zero,
        Option.some.injEq] at hk
      subst hk
      have ok0 := ok0 (by omega)
      have ok1 := ok1 (by omega)
      simp only [e2] at hfail ⊢
      simp only [List.append_assoc] at ok0 ok1 hfail
      simp [esp_lcd_panel_io_tx_param, hfail, ok0, ok1, tx_event]
    | 3, hk, hfail, ok0, ok1, ok2 =>
      simp only [init_trailing_writes, List.getElem?_cons_succ, List.getElem?_cons_zero,
        Option.some.injEq] at hk
      subst hk
      have ok0 := ok0 (by omega)
      have ok1 := ok1 (by omega)
      have ok2 := ok2 (by omega)
      simp only [e3] at hfail ⊢
      simp only [List.append_assoc] at ok0 ok1 ok2 hfail
      simp [esp_lcd_panel_io_tx_param, hfail, ok0, ok1, ok2, tx_event]
    | i + 4, hk, _, _, _, _ =>
      simp [init_trailing_writes] at hk

theorem filter_transport_tx_events (io : Nat) (l : List (Int × List Nat × Nat)) :
    (l.map (tx_event io)).filter Event.is_transport = l.map (tx_event io) := by
  rw [List.filter_eq_self]
  intro e he
  obtain ⟨w, -, rfl⟩ := List.mem_map.mp he
  rfl

theorem delay_not_mem_tx_events (io : Nat) (l : List (Int × List Nat × Nat)) (ms : Nat) :
    Event.vTaskDelay ms ∉ l.map (tx_event io) := by
  intro he
  obtain ⟨w, -, hw⟩ := List.mem_map.mp he
  exact absurd hw (by simp [tx_event])

/-- The writes among the events before write number `j` are the first `j`
elements of the write sequence. -/
theorem events_before_of_writes (K : IdfDefs) (s : ili9881c_panel_t)
    (cmds : List ili9881c_lcd_init_cmd_t) (j : Nat) :
    (events_before_of K s cmds j).filter Event.is_transport
      = ((init_writes_of K s cmds).take j).map (tx_event s.io) := by
  unfold events_before_of
  by_cases hj : j ≤ cmds.length + 1
  · rw [if_pos hj, filter_transport_tx_events]
  · rw [if_neg hj]
    simp only [List.filter_append, filter_transport_tx_events]
    have hsplit : (init_writes_of K s cmds).take (cmds.length + 2)
        = ((init_writes_of K s cmds).take j).take (cmds.length + 2) := by
      rw [List.take_take, Nat.min_eq_left (by omega)]
    rw [hsplit]
    simp only [List.filter_cons, Event.is_transport, List.filter_nil, List.append_nil,
      Bool.false_eq_true, if_false]
    rw [← List.map_append, List.take_append_drop]

/-- The 120 ms delay is among the events before write number `j` exactly when
SLPOUT (write number `cmds.length + 1`) is behind. -/
theorem delay_mem_events_before_of (K : IdfDefs) (s : ili9881c_panel_t)
    (cmds : List ili9881c_lcd_init_cmd_t) (j : Nat) :
    Event.vTaskDelay 120 ∈ events_before_of K s cmds j ↔ cmds.length + 1 < j := by
  unfold events_before_of
  by_cases hj : j ≤ cmds.length + 1
  · rw [if_pos hj]
    constructor
    · intro h
      exact absurd h (delay_not_mem_tx_events _ _ _)
    · intro h
      omega
  · rw [if_neg hj]
    constructor
    · intro _
      omega
    · intro _
      simp

theorem init_writes_take_succ (K : IdfDefs) (s : ili9881c_panel_t)
    (cmds : List ili9881c_lcd_init_cmd_t) (k : Nat) (w : Int × List Nat × Nat)
    (hk : (init_writes_of K s cmds)[k]? = some w) :
    (init_writes_of K s cmds).take (k + 1) = (init_writes_of K s cmds).take k ++ [w] := by
  rw [List.take_succ, hk]
  rfl

/-- C4: on a transport that accepts every write, `panel_ili9881c_init` returns
`ESP_OK` and its calls are, in this order: one write per entry of
`vendor_specific_init_code_default` in table order with the entry's opcode,
bytes and byte count; opcode 0xFF with bytes 0x98, 0x81, 0x00; `LCD_CMD_SLPOUT`
without bytes; a delay of 120 ms; `LCD_CMD_MADCTL` with the one byte
`madctl_val` and `LCD_CMD_COLMOD` with the one byte `colmod_val`, both read from
the instance at the time of the call. -/
theorem init_success_trace (K : IdfDefs) (E : Env) (tr : List Event) (s : ili9881c_panel_t)
    (hall : ∀ h io c p n, E.tx_param h io c p n = K.ESP_OK) :
    (panel_ili9881c_init K E tr s).ret = K.ESP_OK
      ∧ (panel_ili9881c_init K E tr s).trace =
        tr ++ vendor_specific_init_code_default.map
            (fun c => Event.tx_param s.io c.cmd c.data c.data_bytes)
          ++ [Event.tx_param s.io 0xFF [0x98, 0x81, 0x00] 3,
              Event.tx_param s.io K.LCD_CMD_SLPOUT [] 0,
              Event.vTaskDelay 120,
              Event.tx_param s.io K.LCD_CMD_MADCTL [s.madctl_val] 1,
              Event.tx_param s.io K.LCD_CMD_COLMOD [s.colmod_val] 1] := by
  have hloop := init_cmds_loop_ok K E s.io vendor_specific_init_code_default tr
    (fun _ _ _ => hall _ _ _ _ _)
  have hmap : vendor_specific_init_code_default.map
      (fun c => Event.tx_param s.io c.cmd c.data c.data_bytes)
      = vendor_specific_init_code_default.map (init_cmd_event s.io) := rfl
  unfold panel_ili9881c_init panel_ili9881c_init_body
  rw [init_cmds_size_covers_table, hmap]
  dsimp only
  rw [hloop]
  simp [esp_lcd_panel_io_tx_param, hall]

/-- C4 on the ESP-IDF values, with every call succeeding and an instance whose
cached `madctl_val` already holds the BGR and mirror-x bits: the run ends with
`ESP_OK` after 200 calls, the last two of which send 0x48 and 0x55. -/
theorem init_success_trace_witness :
    (panel_ili9881c_init esp_idf env_ok [] ⟨1, -1, 0, 0, 0x48, 0x55, 0, false⟩).ret
        = esp_idf.ESP_OK
      ∧ (panel_ili9881c_init esp_idf env_ok [] ⟨1, -1, 0, 0, 0x48, 0x55, 0, false⟩).trace =
        [] ++ vendor_specific_init_code_default.map
            (fun c => Event.tx_param 1 c.cmd c.data c.data_bytes)
          ++ [Event.tx_param 1 0xFF [0x98, 0x81, 0x00] 3,
              Event.tx_param 1 esp_idf.LCD_CMD_SLPOUT [] 0,
              Event.vTaskDelay 120,
              Event.tx_param 1 esp_idf.LCD_CMD_MADCTL [0x48] 1,
              Event.tx_param 1 esp_idf.LCD_CMD_COLMOD [0x55] 1] :=
  init_success_trace esp_idf env_ok [] ⟨1, -1, 0, 0, 0x48, 0x55, 0, false⟩
    (fun _ _ _ _ _ => rfl)

/-- C5: let W be `init_writes` (the table, then page-0 select, SLPOUT, MADCTL,
COLMOD).  If write number `k` of W is the first the transport rejects, that
is, every earlier write of W is accepted at its moment of the run and write
`k` is not, then `panel_ili9881c_init` returns the code the transport gave for
write `k`, its calls are the events before write `k` followed by write `k` and
nothing else, the writes among them are exactly the first `k + 1` elements of
W, the 120 ms delay is among them only when `k` lies after SLPOUT, and the
instance is unchanged. -/
theorem init_stops_at_first_failure (K : IdfDefs) (E : Env) (tr : List Event)
    (s : ili9881c_panel_t) (k : Nat) (w : Int × List Nat × Nat)
    (hk : (init_writes K s)[k]? = some w)
    (hok : ∀ j w', j < k → (init_writes K s)[j]? = some w' →
      E.tx_param (tr ++ events_before K s j) s.io w'.1 w'.2.1 w'.2.2 = K.ESP_OK)
    (hfail : E.tx_param (tr ++ events_before K s k) s.io w.1 w.2.1 w.2.2 ≠ K.ESP_OK) :
    (panel_ili9881c_init K E tr s).ret
        = E.tx_param (tr ++ events_before K s k) s.io w.1 w.2.1 w.2.2
      ∧ (panel_ili9881c_init K E tr s).trace
        = tr ++ (events_before K s k ++ [tx_event s.io w])
      ∧ (events_before K s k ++ [tx_event s.io w]).filter Event.is_transport
        = ((init_writes K s).take (k + 1)).map (tx_event s.io)
      ∧ (Event.vTaskDelay 120 ∈ events_before K s k ++ [tx_event s.io w] ↔ slpout_index < k)
      ∧ (panel_ili9881c_init K E tr s).panel = s := by
  have hrun := init_body_first_failure K E tr s vendor_specific_init_code_default k w hk hok hfail
  have hinit : panel_ili9881c_init K E tr s
      = panel_ili9881c_init_body K E tr s vendor_specific_init_code_default
          vendor_specific_init_code_default.length := by
    unfold panel_ili9881c_init panel_ili9881c_init_body
    rw [init_cmds_size_covers_table, List.take_length]
  rw [hinit, hrun]
  refine ⟨rfl, by simp [events_before, List.append_assoc], ?_, ?_, rfl⟩
  · unfold events_before init_writes
    rw [List.filter_append, events_before_of_writes,
      init_writes_take_succ K s vendor_specific_init_code_default k w hk]
    simp [Event.is_transport, tx_event]
  · unfold events_before slpout_index
    rw [List.mem_append, delay_mem_events_before_of]
    constructor
    · rintro (h | h)
      · exact h
      · exact absurd h (by simp [tx_event])
    · intro h
      exact Or.inl h

/-- C5 on the ESP-IDF values with a transport that accepts its first write
and rejects every later one with -1: write number 1 of W (opcode 0x01 of the
table) is the first rejected, the run returns -1, and exactly the two writes
`W[0]` and `W[1]` were issued. -/
theorem init_stops_at_first_failure_witness :
    (init_writes esp_idf ⟨1, -1, 0, 0, 0x48, 0x55, 0, false⟩)[1]? = some (0x01, [0x00], 1)
      ∧ (panel_ili9881c_init esp_idf env_tx_fail_after_first []
          ⟨1, -1, 0, 0, 0x48, 0x55, 0, false⟩).ret = -1
      ∧ (panel_ili9881c_init esp_idf env_tx_fail_after_first []
          ⟨1, -1, 0, 0, 0x48, 0x55, 0, false⟩).trace
        = [Event.tx_param 1 0xFF [0x98, 0x81, 0x03] 3, Event.tx_param 1 0x01 [0x00] 1] := by
  have h := init_stops_at_first_failure esp_idf env_tx_fail_after_first []
    ⟨1, -1, 0, 0, 0x48, 0x55, 0, false⟩ 1 (0x01, [0x00], 1) rfl
    (by
      intro j w' hj _
      obtain rfl : j = 0 := by omega
      rfl)
    (by decide)
  exact ⟨rfl, h.1, h.2.1⟩

/-! ## The cached MADCTL register -/

theorem testBit_int_not (m i : Nat) :
    (int_not m).testBit i = (decide (i < 32) && !m.testBit i) := by
  unfold int_not
  rw [Nat.testBit_xor, Nat.testBit_two_pow_sub_one, Nat.testBit_mod_two_pow]
  by_cases h : i < 32 <;> simp [h]

theorem testBit_or_byte (v m i : Nat) :
    ((v ||| m) % 256).testBit i = (decide (i < 8) && (v.testBit i || m.testBit i)) := by
  have h256 : (256 : Nat) = 2 ^ 8 := by norm_num
  rw [h256, Nat.testBit_mod_two_pow, Nat.testBit_or]

theorem testBit_and_not_byte (v m i : Nat) :
    ((v &&& int_not m) % 256).testBit i = (decide (i < 8) && (v.testBit i && !m.testBit i)) := by
  have h256 : (256 : Nat) = 2 ^ 8 := by norm_num
  rw [h256, Nat.testBit_mod_two_pow, Nat.testBit_and, testBit_int_not]
  by_cases h : i < 8
  · have h32 : i < 32 := by omega
    simp [h, h32]
  · simp [h]

theorem testBit_of_lt_256 (m i : Nat) (hm : m < 256) (hi : m.testBit i = true) : i < 8 := by
  by_contra hge
  have hlt : m < 2 ^ i :=
    lt_of_lt_of_le hm (by
      have : (256 : Nat) = 2 ^ 8 := by norm_num
      rw [this]
      exact Nat.pow_le_pow_right (by norm_num) (by omega))
  rw [Nat.testBit_lt_two_pow hlt] at hi
  exact absurd hi (by decide)

theorem testBit_of_and_eq_zero (a b i : Nat) (h : a &&& b = 0) (ha : a.testBit i = true) :
    b.testBit i = false := by
  have := Nat.testBit_and a b i
  rw [h, Nat.zero_testBit, ha] at this
  simpa using this.symm

/-- Bit `i` of the register after `panel_ili9881c_mirror`: within the byte, a
bit of `LCD_CMD_MY_BIT` is `mirror_y`, any other bit of `LCD_CMD_MX_BIT` is
`mirror_x`, and the remaining bits are the old ones. -/
theorem testBit_madctl_after_mirror (K : IdfDefs) (v : Nat) (x y : Bool) (i : Nat) :
    (madctl_after_mirror K v x y).testBit i =
      (decide (i < 8) &&
        (if K.LCD_CMD_MY_BIT.testBit i then y
         else if K.LCD_CMD_MX_BIT.testBit i then x else v.testBit i)) := by
  unfold madctl_after_mirror
  cases x <;> cases y <;>
    simp only [testBit_or_byte, testBit_and_not_byte, if_true, if_false, Bool.false_eq_true] <;>
    cases K.LCD_CMD_MY_BIT.testBit i <;> cases K.LCD_CMD_MX_BIT.testBit i <;>
    cases v.testBit i <;> by_cases hi : i < 8 <;> simp [hi]

/-- Bit `i` of the register after `panel_ili9881c_swap_xy`. -/
theorem testBit_madctl_after_swap_xy (K : IdfDefs) (v : Nat) (swap_axes : Bool) (i : Nat) :
    (madctl_after_swap_xy K v swap_axes).testBit i =
      (decide (i < 8) && (if K.LCD_CMD_MV_BIT.testBit i then swap_axes else v.testBit i)) := by
  unfold madctl_after_swap_xy
  cases swap_axes <;>
    simp only [testBit_or_byte, testBit_and_not_byte, if_true, if_false, Bool.false_eq_true] <;>
    cases K.LCD_CMD_MV_BIT.testBit i <;> cases v.testBit i <;> by_cases hi : i < 8 <;> simp [hi]

theorem mirror_eq (K : IdfDefs) (E : Env) (tr : List Event) (s : ili9881c_panel_t)
    (x y : Bool) :
    panel_ili9881c_mirror K E tr s x y =
      ⟨E.tx_param tr s.io K.LCD_CMD_MADCTL [madctl_after_mirror K s.madctl_val x y] 1,
        { s with madctl_val := madctl_after_mirror K s.madctl_val x y },
        tr ++ [Event.tx_param s.io K.LCD_CMD_MADCTL [madctl_after_mirror K s.madctl_val x y] 1]⟩ := by
  unfold panel_ili9881c_mirror madctl_after_mirror esp_lcd_panel_io_tx_param
  cases x <;> cases y <;> simp <;> intro h <;> exact h.symm

theorem swap_xy_eq (K : IdfDefs) (E : Env) (tr : List Event) (s : ili9881c_panel_t)
    (swap_axes : Bool) :
    panel_ili9881c_swap_xy K E tr s swap_axes =
      ⟨E.tx_param tr s.io K.LCD_CMD_MADCTL [madctl_after_swap_xy K s.madctl_val swap_axes] 1,
        { s with madctl_val := madctl_after_swap_xy K s.madctl_val swap_axes },
        tr ++ [Event.tx_param s.io K.LCD_CMD_MADCTL [madctl_after_swap_xy K s.madctl_val swap_axes] 1]⟩ := by
  unfold panel_ili9881c_swap_xy madctl_after_swap_xy esp_lcd_panel_io_tx_param
  cases swap_axes <;> simp <;> intro h <;> exact h.symm

theorem madctl_after_mirror_and_mx (K : IdfDefs) (v : Nat) (x y : Bool)
    (hx : K.LCD_CMD_MX_BIT < 256) (hxy : K.LCD_CMD_MX_BIT &&& K.LCD_CMD_MY_BIT = 0) :
    madctl_after_mirror K v x y &&& K.LCD_CMD_MX_BIT
      = if x then K.LCD_CMD_MX_BIT else 0 := by
  apply Nat.eq_of_testBit_eq
  intro i
  rw [Nat.testBit_and, testBit_madctl_after_mirror]
  cases hmx : K.LCD_CMD_MX_BIT.testBit i
  · cases x <;> simp [hmx]
  · have hi : i < 8 := testBit_of_lt_256 _ i hx hmx
    have hmy : K.LCD_CMD_MY_BIT.testBit i = false := testBit_of_and_eq_zero _ _ i hxy hmx
    cases x <;> simp [hmx, hmy, hi]

theorem madctl_after_mirror_and_my (K : IdfDefs) (v : Nat) (x y : Bool)
    (hy : K.LCD_CMD_MY_BIT < 256) :
    madctl_after_mirror K v x y &&& K.LCD_CMD_MY_BIT
      = if y then K.LCD_CMD_MY_BIT else 0 := by
  apply Nat.eq_of_testBit_eq
  intro i
  rw [Nat.testBit_and, testBit_madctl_after_mirror]
  cases hmy : K.LCD_CMD_MY_BIT.testBit i
  · cases y <;> simp [hmy]
  · have hi : i < 8 := testBit_of_lt_256 _ i hy hmy
    cases y <;> simp [hmy, hi]

theorem madctl_after_swap_xy_and_mv (K : IdfDefs) (v : Nat) (swap_axes : Bool)
    (hv : K.LCD_CMD_MV_BIT < 256) :
    madctl_after_swap_xy K v swap_axes &&& K.LCD_CMD_MV_BIT
      = if swap_axes then K.LCD_CMD_MV_BIT else 0 := by
  apply Nat.eq_of_testBit_eq
  intro i
  rw [Nat.testBit_and, testBit_madctl_after_swap_xy]
  cases hmv : K.LCD_CMD_MV_BIT.testBit i
  · cases swap_axes <;> simp [hmv]
  · have hi : i < 8 := testBit_of_lt_256 _ i hv hmv
    cases swap_axes <;> simp [hmv, hi]

/-- A second `panel_ili9881c_mirror` overrides the first. -/
theorem madctl_after_mirror_twice (K : IdfDefs) (v : Nat) (a b c d : Bool) :
    madctl_after_mirror K (madctl_after_mirror K v a b) c d = madctl_after_mirror K v c d := by
  apply Nat.eq_of_testBit_eq
  intro i
  simp only [testBit_madctl_after_mirror]
  cases K.LCD_CMD_MY_BIT.testBit i <;> cases K.LCD_CMD_MX_BIT.testBit i <;>
    by_cases hi : i < 8 <;> simp [hi]

theorem madctl_after_swap_xy_twice (K : IdfDefs) (v : Nat) (a b : Bool) :
    madctl_after_swap_xy K (madctl_after_swap_xy K v a) b = madctl_after_swap_xy K v b := by
  apply Nat.eq_of_testBit_eq
  intro i
  simp only [testBit_madctl_after_swap_xy]
  cases K.LCD_CMD_MV_BIT.testBit i <;> by_cases hi : i < 8 <;> simp [hi]

/-- C6: after `panel_ili9881c_mirror(x, y)` the bits of `LCD_CMD_MX_BIT` in
`madctl_val` are set when `x` holds and clear otherwise, the bits of
`LCD_CMD_MY_BIT` are set when `y` holds and clear otherwise, every other bit
of the byte is as before, every other field of the instance is as before, and
the call made exactly one transport call: a write of `LCD_CMD_MADCTL` with
the one byte `madctl_val` as it is after the update.  The assumptions on the
header say that the two mirror masks lie in the register byte and share no
bit. -/
theorem mirror_sets_mirror_bits_only (K : IdfDefs) (E : Env) (tr : List Event)
    (s : ili9881c_panel_t) (x y : Bool)
    (hx : K.LCD_CMD_MX_BIT < 256) (hy : K.LCD_CMD_MY_BIT < 256)
    (hxy : K.LCD_CMD_MX_BIT &&& K.LCD_CMD_MY_BIT = 0) :
    (x = true → (panel_ili9881c_mirror K E tr s x y).panel.madctl_val &&& K.LCD_CMD_MX_BIT
        = K.LCD_CMD_MX_BIT)
      ∧ (x = false → (panel_ili9881c_mirror K E tr s x y).panel.madctl_val &&& K.LCD_CMD_MX_BIT
        = 0)
      ∧ (y = true → (panel_ili9881c_mirror K E tr s x y).panel.madctl_val &&& K.LCD_CMD_MY_BIT
        = K.LCD_CMD_MY_BIT)
      ∧ (y = false → (panel_ili9881c_mirror K E tr s x y).panel.madctl_val &&& K.LCD_CMD_MY_BIT
        = 0)
      ∧ (∀ i, i < 8 → K.LCD_CMD_MX_BIT.testBit i = false → K.LCD_CMD_MY_BIT.testBit i = false →
          (panel_ili9881c_mirror K E tr s x y).panel.madctl_val.testBit i
            = s.madctl_val.testBit i)
      ∧ (panel_ili9881c_mirror K E tr s x y).panel.colmod_val = s.colmod_val
      ∧ (panel_ili9881c_mirror K E tr s x y).panel.x_gap = s.x_gap
      ∧ (panel_ili9881c_mirror K E tr s x y).panel.y_gap = s.y_gap
      ∧ (panel_ili9881c_mirror K E tr s x y).panel
        = { s with madctl_val := (panel_ili9881c_mirror K E tr s x y).panel.madctl_val }
      ∧ (panel_ili9881c_mirror K E tr s x y).trace
        = tr ++ [Event.tx_param s.io K.LCD_CMD_MADCTL
            [(panel_ili9881c_mirror K E tr s x y).panel.madctl_val] 1] := by
  rw [mirror_eq]
  refine ⟨?_, ?_, ?_, ?_, ?_, rfl, rfl, rfl, rfl, rfl⟩
  · intro h
    subst h
    simpa using madctl_after_mirror_and_mx K s.madctl_val true y hx hxy
  · intro h
    subst h
    simpa using madctl_after_mirror_and_mx K s.madctl_val false y hx hxy
  · intro h
    subst h
    simpa using madctl_after_mirror_and_my K s.madctl_val x true hy
  · intro h
    subst h
    simpa using madctl_after_mirror_and_my K s.madctl_val x false hy
  · intro i hi hmx hmy
    simp [testBit_madctl_after_mirror, hi, hmx, hmy]

/-- C6 on the ESP-IDF values: `mirror(true, false)` on an instance caching BGR,
axis swap and vertical mirror (0xA8) sets the horizontal bit, clears the
vertical one and writes 0x68. -/
theorem mirror_sets_mirror_bits_only_witness :
    (panel_ili9881c_mirror esp_idf env_ok [] ⟨1, -1, 0, 0, 0xA8, 0x55, 0, false⟩ true
        false).panel.madctl_val &&& esp_idf.LCD_CMD_MX_BIT = esp_idf.LCD_CMD_MX_BIT
      ∧ (panel_ili9881c_mirror esp_idf env_ok [] ⟨1, -1, 0, 0, 0xA8, 0x55, 0, false⟩ true
        false).panel.madctl_val &&& esp_idf.LCD_CMD_MY_BIT = 0
      ∧ (panel_ili9881c_mirror esp_idf env_ok [] ⟨1, -1, 0, 0, 0xA8, 0x55, 0, false⟩ true
        false).trace = [Event.tx_param 1 esp_idf.LCD_CMD_MADCTL [0x68] 1] :=
  have h := mirror_sets_mirror_bits_only esp_idf env_ok [] ⟨1, -1, 0, 0, 0xA8, 0x55, 0, false⟩
    true false (by decide) (by decide) (by decide)
  ⟨h.1 rfl, h.2.2.2.1 rfl, h.2.2.2.2.2.2.2.2.2⟩

/-- Whenever the constructor stores an instance, the configuration is
supported and the instance is the seeded one. -/
theorem new_panel_stored_instance (K : IdfDefs) (E : Env) (tr : List Event) (io : Nat)
    (cfg : esp_lcd_panel_dev_config_t) (ret_panel : Bool) (p : ili9881c_panel_t)
    (h : (esp_lcd_new_panel_ili9881c K E tr io (some cfg) ret_panel).ret_panel = some p) :
    supported_config K cfg ∧ p = seeded_panel K io cfg := by
  have hswitch : ∀ tr', (new_panel_rgb_ele_order K E tr' io cfg calloc_panel).ret_panel = some p →
      supported_config K cfg ∧ p = seeded_panel K io cfg := by
    intro tr' h'
    by_cases hcfg : supported_config K cfg
    · rw [new_panel_supported K E tr' io cfg hcfg] at h'
      exact ⟨hcfg, (Option.some.inj h').symm⟩
    · rw [new_panel_unsupported K E tr' io cfg hcfg] at h'
      exact absurd h' (by simp)
  unfold esp_lcd_new_panel_ili9881c at h
  dsimp only at h
  split_ifs at h
  all_goals first
    | exact hswitch _ h
    | exact absurd h (by simp [new_panel_err])

/-- C7: a second `panel_ili9881c_mirror` replaces the effect of the first:
whatever the transport answers to either call, the instance after
`mirror(a, b)` then `mirror(c, d)` is the instance after `mirror(c, d)` alone.
In particular, on an instance just constructed for RGB, `mirror(true, false)`
then `mirror(false, true)` leaves `madctl_val` equal to `LCD_CMD_MY_BIT`.  The
assumption on the header says that this mask lies in the register byte. -/
theorem mirror_not_cumulative (K : IdfDefs) (E1 E2 E3 : Env) (tr1 tr2 tr3 : List Event)
    (s : ili9881c_panel_t) (a b c d : Bool) (hy : K.LCD_CMD_MY_BIT < 256) :
    (panel_ili9881c_mirror K E2 tr2 (panel_ili9881c_mirror K E1 tr1 s a b).panel c d).panel
        = (panel_ili9881c_mirror K E3 tr3 s c d).panel
      ∧ ∀ (E0 : Env) (tr0 : List Event) (io : Nat) (cfg : esp_lcd_panel_dev_config_t)
          (p : ili9881c_panel_t),
          (esp_lcd_new_panel_ili9881c K E0 tr0 io (some cfg) true).ret_panel = some p →
          cfg.rgb_ele_order = K.LCD_RGB_ELEMENT_ORDER_RGB →
          (panel_ili9881c_mirror K E2 tr2
              (panel_ili9881c_mirror K E1 tr1 p true false).panel false true).panel.madctl_val
            = K.LCD_CMD_MY_BIT := by
  constructor
  · simp only [mirror_eq, madctl_after_mirror_twice]
  · intro E0 tr0 io cfg p hp horder
    obtain ⟨-, rfl⟩ := new_panel_stored_instance K E0 tr0 io cfg true p hp
    simp only [mirror_eq, madctl_after_mirror_twice]
    have hseed : (seeded_panel K io cfg).madctl_val = 0 := by simp [seeded_panel, horder]
    rw [hseed]
    apply Nat.eq_of_testBit_eq
    intro i
    rw [testBit_madctl_after_mirror]
    cases hmy : K.LCD_CMD_MY_BIT.testBit i
    · cases K.LCD_CMD_MX_BIT.testBit i <;> simp
    · have hi : i < 8 := testBit_of_lt_256 _ i hy hmy
      simp [hi]

/-- C7 on the ESP-IDF values: the second mirror call is rejected by the
transport and still decides the cached register; on the RGB instance built by
the constructor the register ends as 0x80. -/
theorem mirror_not_cumulative_witness :
    (panel_ili9881c_mirror esp_idf env_tx_fail []
        (panel_ili9881c_mirror esp_idf env_ok [] ⟨1, -1, 0, 0, 0x08, 0x55, 0, false⟩ true
          true).panel false true).panel
        = (panel_ili9881c_mirror esp_idf env_ok [] ⟨1, -1, 0, 0, 0x08, 0x55, 0, false⟩ false
          true).panel
      ∧ (esp_lcd_new_panel_ili9881c esp_idf env_ok [] 1 (some ⟨-1, 0, 16, false⟩)
          true).ret_panel = some ⟨1, -1, 0, 0, 0, 0x55, 0, false⟩
      ∧ (panel_ili9881c_mirror esp_idf env_tx_fail []
          (panel_ili9881c_mirror esp_idf env_ok [] ⟨1, -1, 0, 0, 0, 0x55, 0, false⟩ true
            false).panel false true).panel.madctl_val = 0x80 :=
  have h := mirror_not_cumulative esp_idf env_ok env_tx_fail env_ok [] [] []
    ⟨1, -1, 0, 0, 0x08, 0x55, 0, false⟩ true true false true (by decide)
  ⟨h.1, rfl, h.2 env_ok [] 1 ⟨-1, 0, 16, false⟩ ⟨1, -1, 0, 0, 0, 0x55, 0, false⟩ rfl rfl⟩

/-- C8: after `panel_ili9881c_swap_xy(swap_axes)` the bits of `LCD_CMD_MV_BIT`
in `madctl_val` are set when `swap_axes` holds and clear otherwise, every
other bit of the byte and every other field of the instance is as before, and
the call made exactly one transport call: a write of `LCD_CMD_MADCTL` with
the one byte `madctl_val` as it is after the update.  The assumption on the
header says that the mask lies in the register byte. -/
theorem swap_xy_sets_swap_bit_only (K : IdfDefs) (E : Env) (tr : List Event)
    (s : ili9881c_panel_t) (swap_axes : Bool) (hv : K.LCD_CMD_MV_BIT < 256) :
    (swap_axes = true →
        (panel_ili9881c_swap_xy K E tr s swap_axes).panel.madctl_val &&& K.LCD_CMD_MV_BIT
          = K.LCD_CMD_MV_BIT)
      ∧ (swap_axes = false →
        (panel_ili9881c_swap_xy K E tr s swap_axes).panel.madctl_val &&& K.LCD_CMD_MV_BIT = 0)
      ∧ (∀ i, i < 8 → K.LCD_CMD_MV_BIT.testBit i = false →
          (panel_ili9881c_swap_xy K E tr s swap_axes).panel.madctl_val.testBit i
            = s.madctl_val.testBit i)
      ∧ (panel_ili9881c_swap_xy K E tr s swap_axes).panel
        = { s with madctl_val := (panel_ili9881c_swap_xy K E tr s swap_axes).panel.madctl_val }
      ∧ (panel_ili9881c_swap_xy K E tr s swap_axes).trace
        = tr ++ [Event.tx_param s.io K.LCD_CMD_MADCTL
            [(panel_ili9881c_swap_xy K E tr s swap_axes).panel.madctl_val] 1] := by
  rw [swap_xy_eq]
  refine ⟨?_, ?_, ?_, rfl, rfl⟩
  · intro h
    subst h
    simpa using madctl_after_swap_xy_and_mv K s.madctl_val true hv
  · intro h
    subst h
    simpa using madctl_after_swap_xy_and_mv K s.madctl_val false hv
  · intro i hi hmv
    simp [testBit_madctl_after_swap_xy, hi, hmv]

/-- C8 on the ESP-IDF values: `swap_xy(true)` on an instance caching BGR and
horizontal mirror (0x48) sets the axis-swap bit and writes 0x68;
`swap_xy(false)` on 0x68 clears it. -/
theorem swap_xy_sets_swap_bit_only_witness :
    (panel_ili9881c_swap_xy esp_idf env_ok [] ⟨1, -1, 0, 0, 0x48, 0x55, 0, false⟩
        true).panel.madctl_val &&& esp_idf.LCD_CMD_MV_BIT = esp_idf.LCD_CMD_MV_BIT
      ∧ (panel_ili9881c_swap_xy esp_idf env_ok [] ⟨1, -1, 0, 0, 0x48, 0x55, 0, false⟩
        true).trace = [Event.tx_param 1 esp_idf.LCD_CMD_MADCTL [0x68] 1]
      ∧ (panel_ili9881c_swap_xy esp_idf env_ok [] ⟨1, -1, 0, 0, 0x68, 0x55, 0, false⟩
        false).panel.madctl_val &&& esp_idf.LCD_CMD_MV_BIT = 0 :=
  ⟨(swap_xy_sets_swap_bit_only esp_idf env_ok [] ⟨1, -1, 0, 0, 0x48, 0x55, 0, false⟩ true
      (by decide)).1 rfl,
    (swap_xy_sets_swap_bit_only esp_idf env_ok [] ⟨1, -1, 0, 0, 0x48, 0x55, 0, false⟩ true
      (by decide)).2.2.2.2,
    (swap_xy_sets_swap_bit_only esp_idf env_ok [] ⟨1, -1, 0, 0, 0x68, 0x55, 0, false⟩ false
      (by decide)).2.1 rfl⟩

/-- C9: `panel_ili9881c_mirror` and `panel_ili9881c_swap_xy` return the answer
of their single `LCD_CMD_MADCTL` write: the result differs from `ESP_OK`
exactly when the write's answer does, and is then that answer.  The instance
after the call carries the requested register value and does not depend on
the transport: it is the same for every platform and trace, so the same
whether the write was accepted or rejected. -/
theorem mirror_swap_xy_error_and_state (K : IdfDefs) (E : Env) (tr : List Event)
    (s : ili9881c_panel_t) (x y swap_axes : Bool) :
    ((panel_ili9881c_mirror K E tr s x y).ret ≠ K.ESP_OK
        ↔ E.tx_param tr s.io K.LCD_CMD_MADCTL [madctl_after_mirror K s.madctl_val x y] 1
            ≠ K.ESP_OK)
      ∧ (panel_ili9881c_mirror K E tr s x y).ret
        = E.tx_param tr s.io K.LCD_CMD_MADCTL [madctl_after_mirror K s.madctl_val x y] 1
      ∧ (panel_ili9881c_mirror K E tr s x y).trace
        = tr ++ [Event.tx_param s.io K.LCD_CMD_MADCTL [madctl_after_mirror K s.madctl_val x y] 1]
      ∧ (∀ (E' : Env) (tr' : List Event),
          (panel_ili9881c_mirror K E' tr' s x y).panel
            = { s with madctl_val := madctl_after_mirror K s.madctl_val x y })
      ∧ ((panel_ili9881c_swap_xy K E tr s swap_axes).ret ≠ K.ESP_OK
        ↔ E.tx_param tr s.io K.LCD_CMD_MADCTL [madctl_after_swap_xy K s.madctl_val swap_axes] 1
            ≠ K.ESP_OK)
      ∧ (panel_ili9881c_swap_xy K E tr s swap_axes).ret
        = E.tx_param tr s.io K.LCD_CMD_MADCTL [madctl_after_swap_xy K s.madctl_val swap_axes] 1
      ∧ (panel_ili9881c_swap_xy K E tr s swap_axes).trace
        = tr ++ [Event.tx_param s.io K.LCD_CMD_MADCTL
            [madctl_after_swap_xy K s.madctl_val swap_axes] 1]
      ∧ (∀ (E' : Env) (tr' : List Event),
          (panel_ili9881c_swap_xy K E' tr' s swap_axes).panel
            = { s with madctl_val := madctl_after_swap_xy K s.madctl_val swap_axes }) := by
  refine ⟨?_, ?_, ?_, ?_, ?_, ?_, ?_, ?_⟩
  · rw [mirror_eq]
  · rw [mirror_eq]
  · rw [mirror_eq]
  · intro E' tr'
    rw [mirror_eq]
  · rw [swap_xy_eq]
  · rw [swap_xy_eq]
  · rw [swap_xy_eq]
  · intro E' tr'
    rw [swap_xy_eq]

/-- C10: repeating `panel_ili9881c_mirror(x, y)` or
`panel_ili9881c_swap_xy(swap_axes)` changes nothing: the instance after the
second call is the instance after the first, and both calls write the same
`LCD_CMD_MADCTL` byte, whatever the transport answered to the first. -/
theorem mirror_swap_xy_idempotent (K : IdfDefs) (E1 E2 : Env) (tr1 tr2 : List Event)
    (s : ili9881c_panel_t) (x y swap_axes : Bool) :
    (panel_ili9881c_mirror K E2 tr2 (panel_ili9881c_mirror K E1 tr1 s x y).panel x y).panel
        = (panel_ili9881c_mirror K E1 tr1 s x y).panel
      ∧ (∃ byte,
          (panel_ili9881c_mirror K E1 tr1 s x y).trace
            = tr1 ++ [Event.tx_param s.io K.LCD_CMD_MADCTL [byte] 1]
          ∧ (panel_ili9881c_mirror K E2 tr2 (panel_ili9881c_mirror K E1 tr1 s x y).panel x
              y).trace = tr2 ++ [Event.tx_param s.io K.LCD_CMD_MADCTL [byte] 1])
      ∧ (panel_ili9881c_swap_xy K E2 tr2 (panel_ili9881c_swap_xy K E1 tr1 s swap_axes).panel
          swap_axes).panel = (panel_ili9881c_swap_xy K E1 tr1 s swap_axes).panel
      ∧ (∃ byte,
          (panel_ili9881c_swap_xy K E1 tr1 s swap_axes).trace
            = tr1 ++ [Event.tx_param s.io K.LCD_CMD_MADCTL [byte] 1]
          ∧ (panel_ili9881c_swap_xy K E2 tr2 (panel_ili9881c_swap_xy K E1 tr1 s swap_axes).panel
              swap_axes).trace = tr2 ++ [Event.tx_param s.io K.LCD_CMD_MADCTL [byte] 1]) := by
  refine ⟨?_, ⟨madctl_after_mirror K s.madctl_val x y, ?_, ?_⟩, ?_,
    ⟨madctl_after_swap_xy K s.madctl_val swap_axes, ?_, ?_⟩⟩
  · simp only [mirror_eq, madctl_after_mirror_twice]
  · rw [mirror_eq]
  · simp only [mirror_eq, madctl_after_mirror_twice]
  · simp only [swap_xy_eq, madctl_after_swap_xy_twice]
  · rw [swap_xy_eq]
  · simp only [swap_xy_eq, madctl_after_swap_xy_twice]

/-! ## Operations without cached state -/

/-- C11: for every instance and integers `x_gap`, `y_gap`,
`panel_ili9881c_set_gap` returns `ESP_OK`, makes no platform call at all (no
transport read or write, no GPIO call, no delay: the trace is unchanged), and
the instance afterwards has the two gaps set to the arguments and every other
field as before. -/
theorem set_gap_stores_offsets_only (K : IdfDefs) (tr : List Event) (s : ili9881c_panel_t)
    (x_gap y_gap : Int) :
    (panel_ili9881c_set_gap K tr s x_gap y_gap).ret = K.ESP_OK
      ∧ (panel_ili9881c_set_gap K tr s x_gap y_gap).trace = tr
      ∧ (panel_ili9881c_set_gap K tr s x_gap y_gap).panel.x_gap = x_gap
      ∧ (panel_ili9881c_set_gap K tr s x_gap y_gap).panel.y_gap = y_gap
      ∧ (panel_ili9881c_set_gap K tr s x_gap y_gap).panel.madctl_val = s.madctl_val
      ∧ (panel_ili9881c_set_gap K tr s x_gap y_gap).panel.colmod_val = s.colmod_val
      ∧ (panel_ili9881c_set_gap K tr s x_gap y_gap).panel.reset_gpio_num = s.reset_gpio_num
      ∧ (panel_ili9881c_set_gap K tr s x_gap y_gap).panel.reset_level = s.reset_level
      ∧ (panel_ili9881c_set_gap K tr s x_gap y_gap).panel
        = { s with x_gap := x_gap, y_gap := y_gap } :=
  ⟨rfl, rfl, rfl, rfl, rfl, rfl, rfl, rfl, rfl⟩

theorem reset_hardware_eq (K : IdfDefs) (E : Env) (tr : List Event) (s : ili9881c_panel_t)
    (h : s.reset_gpio_num ≥ 0) :
    panel_ili9881c_reset K E tr s =
      ⟨K.ESP_OK, s,
        tr ++ [Event.gpio_set_level s.reset_gpio_num s.reset_level, Event.vTaskDelay 10,
               Event.gpio_set_level s.reset_gpio_num (!s.reset_level), Event.vTaskDelay 10]⟩ := by
  simp [panel_ili9881c_reset, h]

theorem reset_software_eq (K : IdfDefs) (E : Env) (tr : List Event) (s : ili9881c_panel_t)
    (h : s.reset_gpio_num < 0) :
    panel_ili9881c_reset K E tr s =
      ⟨E.tx_param tr s.io K.LCD_CMD_SWRESET [] 0, s,
        tr ++ [Event.tx_param s.io K.LCD_CMD_SWRESET [] 0] ++
          (if E.tx_param tr s.io K.LCD_CMD_SWRESET [] 0 = K.ESP_OK then [Event.vTaskDelay 20]
           else [])⟩ := by
  have hn : ¬ s.reset_gpio_num ≥ 0 := by omega
  unfold panel_ili9881c_reset esp_lcd_panel_io_tx_param
  by_cases hw : E.tx_param tr s.io K.LCD_CMD_SWRESET [] 0 = K.ESP_OK
  · simp [hn, hw]
  · simp [hn, hw]

/-- C12: `panel_ili9881c_reset` picks its strategy from `reset_gpio_num` alone.
With `reset_gpio_num >= 0` its calls are exactly: drive the pin to
`reset_level`, wait 10 ms, drive it to the negation of `reset_level`, wait
10 ms; no transport call is made and the result is `ESP_OK`.  With
`reset_gpio_num < 0` it makes exactly one transport write, `LCD_CMD_SWRESET`
without bytes, and no GPIO call; when the write is accepted it then waits
20 ms and returns `ESP_OK`, and when the write is rejected it returns the
transport's code with no further call.  The instance is unchanged either way. -/
theorem reset_strategy (K : IdfDefs) (E : Env) (tr : List Event) (s : ili9881c_panel_t) :
    (s.reset_gpio_num ≥ 0 →
        (panel_ili9881c_reset K E tr s).ret = K.ESP_OK
        ∧ (panel_ili9881c_reset K E tr s).trace
          = tr ++ [Event.gpio_set_level s.reset_gpio_num s.reset_level, Event.vTaskDelay 10,
                   Event.gpio_set_level s.reset_gpio_num (!s.reset_level), Event.vTaskDelay 10])
      ∧ (s.reset_gpio_num < 0 →
        (E.tx_param tr s.io K.LCD_CMD_SWRESET [] 0 = K.ESP_OK →
          (panel_ili9881c_reset K E tr s).ret = K.ESP_OK
          ∧ (panel_ili9881c_reset K E tr s).trace
            = tr ++ [Event.tx_param s.io K.LCD_CMD_SWRESET [] 0, Event.vTaskDelay 20])
        ∧ (E.tx_param tr s.io K.LCD_CMD_SWRESET [] 0 ≠ K.ESP_OK →
          (panel_ili9881c_reset K E tr s).ret = E.tx_param tr s.io K.LCD_CMD_SWRESET [] 0
          ∧ (panel_ili9881c_reset K E tr s).trace
            = tr ++ [Event.tx_param s.io K.LCD_CMD_SWRESET [] 0]))
      ∧ (panel_ili9881c_reset K E tr s).panel = s := by
  refine ⟨?_, ?_, ?_⟩
  · intro h
    rw [reset_hardware_eq K E tr s h]
    exact ⟨rfl, rfl⟩
  · intro h
    rw [reset_software_eq K E tr s h]
    constructor
    · intro hw
      simp [hw]
    · intro hw
      simp [hw]
  · by_cases h : s.reset_gpio_num ≥ 0
    · rw [reset_hardware_eq K E tr s h]
    · rw [reset_software_eq K E tr s (by omega)]

/-- C12 on the ESP-IDF values: a hardware reset on active-low pin 5, a
software reset on an accepting transport, and one on a rejecting transport. -/
theorem reset_strategy_witness :
    (panel_ili9881c_reset esp_idf env_tx_fail [] ⟨1, 5, 0, 0, 0, 0x55, 0, false⟩).ret
        = esp_idf.ESP_OK
      ∧ (panel_ili9881c_reset esp_idf env_tx_fail [] ⟨1, 5, 0, 0, 0, 0x55, 0, false⟩).trace
        = [Event.gpio_set_level 5 false, Event.vTaskDelay 10, Event.gpio_set_level 5 true,
           Event.vTaskDelay 10]
      ∧ (panel_ili9881c_reset esp_idf env_ok [] ⟨1, -1, 0, 0, 0, 0x55, 0, false⟩).trace
        = [Event.tx_param 1 esp_idf.LCD_CMD_SWRESET [] 0, Event.vTaskDelay 20]
      ∧ (panel_ili9881c_reset esp_idf env_tx_fail [] ⟨1, -1, 0, 0, 0, 0x55, 0, false⟩).ret = -1
      ∧ (panel_ili9881c_reset esp_idf env_tx_fail [] ⟨1, -1, 0, 0, 0, 0x55, 0, false⟩).trace
        = [Event.tx_param 1 esp_idf.LCD_CMD_SWRESET [] 0] :=
  have hhw := (reset_strategy esp_idf env_tx_fail [] ⟨1, 5, 0, 0, 0, 0x55, 0, false⟩).1
    (by decide)
  have hok := ((reset_strategy esp_idf env_ok [] ⟨1, -1, 0, 0, 0, 0x55, 0, false⟩).2.1
    (by decide)).1 rfl
  have hfail := ((reset_strategy esp_idf env_tx_fail [] ⟨1, -1, 0, 0, 0, 0x55, 0, false⟩).2.1
    (by decide)).2 (by decide)
  ⟨hhw.1, hhw.2, hok.2, hfail.1, hfail.2⟩

/-- A function that sends the single opcode `command` without bytes and
returns the transport's answer: where the write is rejected the macro
`ESP_RETURN_ON_ERROR` returns that answer, otherwise the function returns
`ESP_OK`, which is that answer too. -/
theorem invert_color_eq (K : IdfDefs) (E : Env) (tr : List Event) (s : ili9881c_panel_t)
    (b : Bool) :
    panel_ili9881c_invert_color K E tr s b =
      ⟨E.tx_param tr s.io (if b then K.LCD_CMD_INVON else K.LCD_CMD_INVOFF) [] 0, s,
        tr ++ [Event.tx_param s.io (if b then K.LCD_CMD_INVON else K.LCD_CMD_INVOFF) [] 0]⟩ := by
  unfold panel_ili9881c_invert_color esp_lcd_panel_io_tx_param
  cases b <;> simp <;> intro h <;> exact h.symm

theorem disp_on_off_eq (K : IdfDefs) (E : Env) (tr : List Event) (s : ili9881c_panel_t)
    (b : Bool) :
    panel_ili9881c_disp_on_off K E tr s b =
      ⟨E.tx_param tr s.io (if b then K.LCD_CMD_DISPON else K.LCD_CMD_DISPOFF) [] 0, s,
        tr ++ [Event.tx_param s.io (if b then K.LCD_CMD_DISPON else K.LCD_CMD_DISPOFF) [] 0]⟩ := by
  unfold panel_ili9881c_disp_on_off esp_lcd_panel_io_tx_param
  cases b <;> simp <;> intro h <;> exact h.symm

theorem sleep_eq (K : IdfDefs) (E : Env) (tr : List Event) (s : ili9881c_panel_t)
    (b : Bool) :
    panel_ili9881c_sleep K E tr s b =
      ⟨E.tx_param tr s.io (if b then K.LCD_CMD_SLPIN else K.LCD_CMD_SLPOUT) [] 0, s,
        tr ++ [Event.tx_param s.io (if b then K.LCD_CMD_SLPIN else K.LCD_CMD_SLPOUT) [] 0] ++
          (if E.tx_param tr s.io (if b then K.LCD_CMD_SLPIN else K.LCD_CMD_SLPOUT) [] 0
              = K.ESP_OK then [Event.vTaskDelay 100] else [])⟩ := by
  unfold panel_ili9881c_sleep esp_lcd_panel_io_tx_param
  by_cases hw : E.tx_param tr s.io (if b then K.LCD_CMD_SLPIN else K.LCD_CMD_SLPOUT) [] 0
      = K.ESP_OK
  · simp [hw]
  · simp [hw]

/-- C13: `panel_ili9881c_sleep(b)` makes exactly one transport write, without
bytes, of `LCD_CMD_SLPIN` when `b` holds and of `LCD_CMD_SLPOUT` otherwise.
When the write is accepted it then waits 100 ms and returns `ESP_OK`; when
the write is rejected it returns the transport's code and makes no further
call.  Hence on a transport that accepts every write, `sleep(true)` followed
by `sleep(false)` produces the calls SLPIN, 100 ms, SLPOUT, 100 ms. -/
theorem sleep_write_then_delay (K : IdfDefs) (E : Env) (tr : List Event)
    (s : ili9881c_panel_t) (b : Bool) :
    (E.tx_param tr s.io (if b then K.LCD_CMD_SLPIN else K.LCD_CMD_SLPOUT) [] 0 = K.ESP_OK →
        (panel_ili9881c_sleep K E tr s b).ret = K.ESP_OK
        ∧ (panel_ili9881c_sleep K E tr s b).trace
          = tr ++ [Event.tx_param s.io (if b then K.LCD_CMD_SLPIN else K.LCD_CMD_SLPOUT) [] 0,
                   Event.vTaskDelay 100])
      ∧ (E.tx_param tr s.io (if b then K.LCD_CMD_SLPIN else K.LCD_CMD_SLPOUT) [] 0 ≠ K.ESP_OK →
        (panel_ili9881c_sleep K E tr s b).ret
          = E.tx_param tr s.io (if b then K.LCD_CMD_SLPIN else K.LCD_CMD_SLPOUT) [] 0
        ∧ (panel_ili9881c_sleep K E tr s b).trace
          = tr ++ [Event.tx_param s.io (if b then K.LCD_CMD_SLPIN else K.LCD_CMD_SLPOUT) [] 0])
      ∧ ((∀ h io c p n, E.tx_param h io c p n = K.ESP_OK) →
        (panel_ili9881c_sleep K E (panel_ili9881c_sleep K E tr s true).trace
            (panel_ili9881c_sleep K E tr s true).panel false).trace
          = tr ++ [Event.tx_param s.io K.LCD_CMD_SLPIN [] 0, Event.vTaskDelay 100,
                   Event.tx_param s.io K.LCD_CMD_SLPOUT [] 0, Event.vTaskDelay 100]) := by
  refine ⟨?_, ?_, ?_⟩
  · intro hw
    rw [sleep_eq]
    simp [hw]
  · intro hw
    rw [sleep_eq]
    simp [hw]
  · intro hall
    simp [sleep_eq, hall]

/-- C13 on the ESP-IDF values: entering and leaving sleep on an accepting
transport, and entering sleep on a rejecting one. -/
theorem sleep_write_then_delay_witness :
    (panel_ili9881c_sleep esp_idf env_ok
        (panel_ili9881c_sleep esp_idf env_ok [] ⟨1, -1, 0, 0, 0, 0x55, 0, false⟩ true).trace
        (panel_ili9881c_sleep esp_idf env_ok [] ⟨1, -1, 0, 0, 0, 0x55, 0, false⟩ true).panel
        false).trace
        = [Event.tx_param 1 esp_idf.LCD_CMD_SLPIN [] 0, Event.vTaskDelay 100,
           Event.tx_param 1 esp_idf.LCD_CMD_SLPOUT [] 0, Event.vTaskDelay 100]
      ∧ (panel_ili9881c_sleep esp_idf env_tx_fail [] ⟨1, -1, 0, 0, 0, 0x55, 0, false⟩ true).ret
        = -1
      ∧ (panel_ili9881c_sleep esp_idf env_tx_fail [] ⟨1, -1, 0, 0, 0, 0x55, 0, false⟩
          true).trace = [Event.tx_param 1 esp_idf.LCD_CMD_SLPIN [] 0] :=
  have hpair := (sleep_write_then_delay esp_idf env_ok [] ⟨1, -1, 0, 0, 0, 0x55, 0, false⟩
    true).2.2 (fun _ _ _ _ _ => rfl)
  have hfail := (sleep_write_then_delay esp_idf env_tx_fail []
    ⟨1, -1, 0, 0, 0, 0x55, 0, false⟩ true).2.1 (by decide)
  ⟨hpair, hfail.1, hfail.2⟩

/-- C14: `panel_ili9881c_invert_color(b)` makes exactly one transport call, a
write without bytes of `LCD_CMD_INVON` when `b` holds and `LCD_CMD_INVOFF`
otherwise; `panel_ili9881c_disp_on_off(b)` makes exactly one transport call,
a write without bytes of `LCD_CMD_DISPON` when `b` holds and `LCD_CMD_DISPOFF`
otherwise, and no delay; and `invert_color`, `disp_on_off` and `sleep` leave
the whole instance as it was, whatever the transport answers. -/
theorem invert_disp_sleep_single_write (K : IdfDefs) (E : Env) (tr : List Event)
    (s : ili9881c_panel_t) (b : Bool) :
    (panel_ili9881c_invert_color K E tr s b).trace
        = tr ++ [Event.tx_param s.io (if b then K.LCD_CMD_INVON else K.LCD_CMD_INVOFF) [] 0]
      ∧ (panel_ili9881c_disp_on_off K E tr s b).trace
        = tr ++ [Event.tx_param s.io (if b then K.LCD_CMD_DISPON else K.LCD_CMD_DISPOFF) [] 0]
      ∧ (panel_ili9881c_invert_color K E tr s b).panel = s
      ∧ (panel_ili9881c_disp_on_off K E tr s b).panel = s
      ∧ (panel_ili9881c_sleep K E tr s b).panel = s := by
  rw [invert_color_eq, disp_on_off_eq, sleep_eq]
  exact ⟨rfl, rfl, rfl, rfl, rfl⟩

/-! ## Identity reads of the constructor -/

/-- C15, as stated, fails: a supported configuration does not always lead to
the four identity calls.  With RGB at 24 bits per pixel and reset line 4, a
rejected `gpio_config` ends the constructor with that code before any
transport call; and with BGR at 18 bits per pixel and no reset line, a `NULL`
from `calloc` does the same. -/
theorem new_panel_no_identity_reads_on_early_failure :
    supported_config esp_idf ⟨4, 0, 24, true⟩
      ∧ (esp_lcd_new_panel_ili9881c esp_idf env_gpio_fail [] 1 (some ⟨4, 0, 24, true⟩) true).ret
        = -1
      ∧ (esp_lcd_new_panel_ili9881c esp_idf env_gpio_fail [] 1 (some ⟨4, 0, 24, true⟩)
          true).trace
        = [Event.calloc, Event.gpio_config (reset_pin_bit_mask 4), Event.gpio_reset_pin 0,
           Event.free]
      ∧ (esp_lcd_new_panel_ili9881c esp_idf env_gpio_fail [] 1 (some ⟨4, 0, 24, true⟩)
          true).trace.filter Event.is_transport = []
      ∧ supported_config esp_idf ⟨-1, 1, 18, false⟩
      ∧ (esp_lcd_new_panel_ili9881c esp_idf env_no_mem [] 1 (some ⟨-1, 1, 18, false⟩)
          true).trace.filter Event.is_transport = [] := by
  refine ⟨by decide, rfl, rfl, rfl, by decide, rfl⟩

/-- C15 (amended): for non-null `io` and `ret_panel`, a successful allocation,
a reset line that is absent or configured without error, and a supported
configuration, the transport calls of the constructor are exactly: one write
of opcode 0xFF with bytes 0x98, 0x81, 0x01, then one-byte reads of opcodes
0x00, 0x01 and 0x02 in this order.  The returned code and the stored instance
are `ESP_OK` and the seeded instance, and stay the same when the transport's
answers to writes and reads are replaced by any others. -/
theorem new_panel_identity_reads (K : IdfDefs) (E : Env) (tr : List Event) (io : Nat)
    (cfg : esp_lcd_panel_dev_config_t)
    (hio : io ≠ 0) (halloc : E.calloc tr = true)
    (hgpio : cfg.reset_gpio_num ≥ 0 →
      E.gpio_config (tr ++ [Event.calloc]) (reset_pin_bit_mask cfg.reset_gpio_num) = K.ESP_OK)
    (hcfg : supported_config K cfg) :
    (∃ evs, (esp_lcd_new_panel_ili9881c K E tr io (some cfg) true).trace = tr ++ evs
        ∧ evs.filter Event.is_transport
          = [Event.tx_param io 0xFF [0x98, 0x81, 0x01] 3, Event.rx_param io 0x00 1,
             Event.rx_param io 0x01 1, Event.rx_param io 0x02 1])
      ∧ (esp_lcd_new_panel_ili9881c K E tr io (some cfg) true).ret = K.ESP_OK
      ∧ (esp_lcd_new_panel_ili9881c K E tr io (some cfg) true).ret_panel
        = some (seeded_panel K io cfg)
      ∧ ∀ (tx : List Event → Nat → Int → List Nat → Nat → esp_err_t)
          (rx : List Event → Nat → Int → Nat → esp_err_t × List Nat),
          (esp_lcd_new_panel_ili9881c K { E with tx_param := tx, rx_param := rx } tr io
              (some cfg) true).ret
            = (esp_lcd_new_panel_ili9881c K E tr io (some cfg) true).ret
          ∧ (esp_lcd_new_panel_ili9881c K { E with tx_param := tx, rx_param := rx } tr io
              (some cfg) true).ret_panel
            = (esp_lcd_new_panel_ili9881c K E tr io (some cfg) true).ret_panel := by
  have hrun : ∀ E' : Env, E'.calloc = E.calloc → E'.gpio_config = E.gpio_config →
      esp_lcd_new_panel_ili9881c K E' tr io (some cfg) true =
        ⟨K.ESP_OK, some (seeded_panel K io cfg),
          tr ++ [Event.calloc] ++
            (if cfg.reset_gpio_num ≥ 0 then
              [Event.gpio_config (reset_pin_bit_mask cfg.reset_gpio_num)] else []) ++
            [Event.tx_param io 0xFF [0x98, 0x81, 0x01] 3, Event.rx_param io 0x00 1,
             Event.rx_param io 0x01 1, Event.rx_param io 0x02 1]⟩ := by
    intro E' hc hg
    rw [new_panel_reaches_switch K E' tr io cfg hio (by rw [hc]; exact halloc)
      (by rw [hg]; exact hgpio), new_panel_supported K E' _ io cfg hcfg]
  refine ⟨⟨[Event.calloc] ++
      (if cfg.reset_gpio_num ≥ 0 then
        [Event.gpio_config (reset_pin_bit_mask cfg.reset_gpio_num)] else []) ++
      [Event.tx_param io 0xFF [0x98, 0x81, 0x01] 3, Event.rx_param io 0x00 1,
       Event.rx_param io 0x01 1, Event.rx_param io 0x02 1], ?_, ?_⟩, ?_, ?_, ?_⟩
  · rw [hrun E rfl rfl]
    simp [List.append_assoc]
  · by_cases hpin : cfg.reset_gpio_num ≥ 0 <;> simp [hpin, Event.is_transport]
  · rw [hrun E rfl rfl]
  · rw [hrun E rfl rfl]
  · intro tx rx
    rw [hrun E rfl rfl, hrun { E with tx_param := tx, rx_param := rx } rfl rfl]
    exact ⟨rfl, rfl⟩

/-- C15 (amended) on the ESP-IDF values: with reset line 5 and BGR at 16 bits
per pixel the constructor succeeds with the same instance on a transport that
rejects every write and every read. -/
theorem new_panel_identity_reads_witness :
    (esp_lcd_new_panel_ili9881c esp_idf env_transport_fail [] 1 (some ⟨5, 1, 16, true⟩)
        true).ret = esp_idf.ESP_OK
      ∧ (esp_lcd_new_panel_ili9881c esp_idf env_transport_fail [] 1 (some ⟨5, 1, 16, true⟩)
        true).ret_panel = some ⟨1, 5, 0, 0, 0x08, 0x55, 0, true⟩
      ∧ (esp_lcd_new_panel_ili9881c esp_idf env_ok [] 1 (some ⟨5, 1, 16, true⟩)
        true).ret_panel = some ⟨1, 5, 0, 0, 0x08, 0x55, 0, true⟩ := by
  have h := new_panel_identity_reads esp_idf env_transport_fail [] 1 ⟨5, 1, 16, true⟩
    (by decide) rfl (fun _ => rfl) (by decide)
  have hsame := h.2.2.2 env_ok.tx_param env_ok.rx_param
  exact ⟨h.2.1, h.2.2.1, hsame.2.trans h.2.2.1⟩

/-! ## Replaying the table -/

/-- No path through `panel_ili9881c_init` writes to the instance. -/
theorem init_panel (K : IdfDefs) (E : Env) (tr : List Event) (s : ili9881c_panel_t) :
    (panel_ili9881c_init K E tr s).panel = s := by
  unfold panel_ili9881c_init panel_ili9881c_init_body
  dsimp only
  split
  · rfl
  · split_ifs <;> rfl

/-- On a transport that accepts every write `panel_ili9881c_init` runs to its
end. -/
theorem init_eq_of_accepting (K : IdfDefs) (E : Env) (tr : List Event) (s : ili9881c_panel_t)
    (hall : ∀ h io c p n, E.tx_param h io c p n = K.ESP_OK) :
    panel_ili9881c_init K E tr s = ⟨K.ESP_OK, s, tr ++ init_events K s⟩ := by
  have hloop := init_cmds_loop_ok K E s.io vendor_specific_init_code_default tr
    (fun _ _ _ => hall _ _ _ _ _)
  unfold panel_ili9881c_init panel_ili9881c_init_body init_events
  rw [init_cmds_size_covers_table]
  dsimp only
  rw [hloop]
  simp [esp_lcd_panel_io_tx_param, hall]

/-- C16: `panel_ili9881c_init` never changes the instance: for every instance,
platform and trace, the instance after the call (all of `madctl_val`,
`colmod_val`, `x_gap`, `y_gap`, `reset_gpio_num`, `reset_level`) is the one
before it, wherever the run stopped.  Consequently, on a transport that
accepts every write, two `init` calls in a row make the same sequence of
calls. -/
theorem init_keeps_instance (K : IdfDefs) (E : Env) (tr : List Event) (s : ili9881c_panel_t) :
    (panel_ili9881c_init K E tr s).panel = s
      ∧ ((∀ h io c p n, E.tx_param h io c p n = K.ESP_OK) →
        ∃ evs, (panel_ili9881c_init K E tr s).trace = tr ++ evs
          ∧ (panel_ili9881c_init K E (panel_ili9881c_init K E tr s).trace
              (panel_ili9881c_init K E tr s).panel).trace
            = (panel_ili9881c_init K E tr s).trace ++ evs) := by
  refine ⟨init_panel K E tr s, ?_⟩
  intro hall
  refine ⟨init_events K s, ?_, ?_⟩
  · rw [init_eq_of_accepting K E tr s hall]
  · rw [init_panel, init_eq_of_accepting K E tr s hall, init_eq_of_accepting K E _ s hall]

/-- C16 on the ESP-IDF values: the instance survives a run that the transport
stops at its second write, and two complete runs in a row make the same
calls. -/
theorem init_keeps_instance_witness :
    (panel_ili9881c_init esp_idf env_tx_fail_after_first []
        ⟨1, 5, 3, 4, 0x48, 0x66, 0, true⟩).panel = ⟨1, 5, 3, 4, 0x48, 0x66, 0, true⟩
      ∧ ∃ evs, (panel_ili9881c_init esp_idf env_ok [] ⟨1, 5, 3, 4, 0x48, 0x66, 0, true⟩).trace
          = [] ++ evs
        ∧ (panel_ili9881c_init esp_idf env_ok
            (panel_ili9881c_init esp_idf env_ok [] ⟨1, 5, 3, 4, 0x48, 0x66, 0, true⟩).trace
            (panel_ili9881c_init esp_idf env_ok [] ⟨1, 5, 3, 4, 0x48, 0x66, 0, true⟩).panel).trace
          = (panel_ili9881c_init esp_idf env_ok [] ⟨1, 5, 3, 4, 0x48, 0x66, 0, true⟩).trace
            ++ evs :=
  ⟨(init_keeps_instance esp_idf env_tx_fail_after_first []
      ⟨1, 5, 3, 4, 0x48, 0x66, 0, true⟩).1,
    (init_keeps_instance esp_idf env_ok [] ⟨1, 5, 3, 4, 0x48, 0x66, 0, true⟩).2
      (fun _ _ _ _ _ => rfl)⟩

theorem init_table_page_selects :
    vendor_specific_init_code_default.filter ili9881c_lcd_init_cmd_t.is_page_select
      = [⟨0xFF, [0x98, 0x81, 0x03], 3⟩, ⟨0xFF, [0x98, 0x81, 0x04], 3⟩,
         ⟨0xFF, [0x98, 0x81, 0x01], 3⟩] := by
  decide

theorem init_table_page_select_events (io : Nat) :
    (vendor_specific_init_code_default.map (init_cmd_event io)).filter Event.is_page_select
      = [Event.tx_param io 0xFF [0x98, 0x81, 0x03] 3, Event.tx_param io 0xFF [0x98, 0x81, 0x04] 3,
         Event.tx_param io 0xFF [0x98, 0x81, 0x01] 3] := by
  rw [List.filter_map]
  rfl

/-- C17, as stated, fails: among the page-select entries of
`vendor_specific_init_code_default` exactly one selects page 0x01, not two;
the table selects pages 0x03, 0x04 and 0x01, each once. -/
theorem init_table_selects_page_one_once :
    (vendor_specific_init_code_default.filter
        (fun c => c.cmd == 0xFF && c.data == [0x98, 0x81, 0x01])).length = 1
      ∧ (vendor_specific_init_code_default.filter
          (fun c => c.cmd == 0xFF && c.data == [0x98, 0x81, 0x01])).length ≠ 2
      ∧ (vendor_specific_init_code_default.filter
          ili9881c_lcd_init_cmd_t.is_page_select).map (fun c => c.data)
        = [[0x98, 0x81, 0x03], [0x98, 0x81, 0x04], [0x98, 0x81, 0x01]] := by
  decide

/-- C17 (amended): the page-select entries of
`vendor_specific_init_code_default` (opcode 0xFF with bytes 0x98, 0x81, page)
are, in table order, the pages 0x03, 0x04 and 0x01, so page 0x01 is selected
exactly once by the table; and when `panel_ili9881c_init` replays the table
on a transport that accepts every write, its page-select writes are these
three in the same order, none dropped or merged, followed by the select of
page 0x00. -/
theorem init_replays_page_selects (K : IdfDefs) (E : Env) (tr : List Event)
    (s : ili9881c_panel_t) (hall : ∀ h io c p n, E.tx_param h io c p n = K.ESP_OK) :
    vendor_specific_init_code_default.filter ili9881c_lcd_init_cmd_t.is_page_select
        = [⟨0xFF, [0x98, 0x81, 0x03], 3⟩, ⟨0xFF, [0x98, 0x81, 0x04], 3⟩,
           ⟨0xFF, [0x98, 0x81, 0x01], 3⟩]
      ∧ (vendor_specific_init_code_default.filter
          (fun c => c.cmd == 0xFF && c.data == [0x98, 0x81, 0x01])).length = 1
      ∧ ∃ evs, (panel_ili9881c_init K E tr s).trace = tr ++ evs
        ∧ evs.filter Event.is_page_select
          = [Event.tx_param s.io 0xFF [0x98, 0x81, 0x03] 3,
             Event.tx_param s.io 0xFF [0x98, 0x81, 0x04] 3,
             Event.tx_param s.io 0xFF [0x98, 0x81, 0x01] 3,
             Event.tx_param s.io 0xFF [0x98, 0x81, 0x00] 3] := by
  refine ⟨init_table_page_selects, by decide, init_events K s, ?_, ?_⟩
  · rw [init_eq_of_accepting K E tr s hall]
  · unfold init_events
    rw [List.filter_append, init_table_page_select_events]
    simp [Event.is_page_select]

/-- C17 (amended) on the ESP-IDF values with every call succeeding. -/
theorem init_replays_page_selects_witness :
    ∃ evs, (panel_ili9881c_init esp_idf env_ok [] ⟨1, -1, 0, 0, 0x08, 0x77, 0, false⟩).trace
        = [] ++ evs
      ∧ evs.filter Event.is_page_select
        = [Event.tx_param 1 0xFF [0x98, 0x81, 0x03] 3, Event.tx_param 1 0xFF [0x98, 0x81, 0x04] 3,
           Event.tx_param 1 0xFF [0x98, 0x81, 0x01] 3,
           Event.tx_param 1 0xFF [0x98, 0x81, 0x00] 3] :=
  (init_replays_page_selects esp_idf env_ok [] ⟨1, -1, 0, 0, 0x08, 0x77, 0, false⟩
    (fun _ _ _ _ _ => rfl)).2.2

/-! ## Shape of the table -/

theorem init_table_all_well_formed :
    vendor_specific_init_code_default.all (fun c => decide c.well_formed) = true := by
  decide

/-- C18: every entry of `vendor_specific_init_code_default` is well formed: its
opcode lies in 0..255, its declared `data_bytes` is the number of bytes it
holds and is at most 255, an entry with opcode 0xFF holds exactly three bytes
starting with the vendor signature 0x98, 0x81, and any other entry holds
exactly one byte.  The first entry is a page select (opcode 0xFF), so every
register write of the table comes after a page select. -/
theorem init_table_well_formed :
    (∀ c ∈ vendor_specific_init_code_default,
        0 ≤ c.cmd ∧ c.cmd ≤ 255
        ∧ c.data_bytes = c.data.length ∧ c.data_bytes ≤ 255
        ∧ (c.cmd = 0xFF → c.data.length = 3 ∧ c.data.take 2 = [0x98, 0x81])
        ∧ (c.cmd ≠ 0xFF → c.data.length = 1))
      ∧ vendor_specific_init_code_default.head? = some ⟨0xFF, [0x98, 0x81, 0x03], 3⟩
      ∧ (∀ (i : Nat) (c : ili9881c_lcd_init_cmd_t),
          vendor_specific_init_code_default[i]? = some c → c.cmd ≠ 0xFF →
          ∃ (j : Nat) (c' : ili9881c_lcd_init_cmd_t),
            j < i ∧ vendor_specific_init_code_default[j]? = some c' ∧ c'.cmd = 0xFF) := by
  refine ⟨?_, rfl, ?_⟩
  · intro c hc
    have h := List.all_eq_true.mp init_table_all_well_formed c hc
    have hwf : c.well_formed := of_decide_eq_true h
    obtain ⟨h1, h2, h3, h4, -, h6, h7⟩ := hwf
    exact ⟨h1, h2, h3, h4, h6, h7⟩
  · intro i c hi hc
    have h0 : vendor_specific_init_code_default[0]? = some ⟨0xFF, [0x98, 0x81, 0x03], 3⟩ := rfl
    cases i with
    | zero =>
      rw [h0] at hi
      have hcmd : c.cmd = 0xFF := by rw [← Option.some.inj hi]
      exact absurd hcmd hc
    | succ i => exact ⟨0, _, Nat.succ_pos i, h0, rfl⟩

/-- C18 at two entries of the table: a page select and a register write. -/
theorem init_table_well_formed_witness :
    ((0xFF : Int) = 0xFF → [0x98, 0x81, 0x04].length = 3
        ∧ [0x98, 0x81, 0x04].take 2 = [0x98, 0x81])
      ∧ ((0xB7 : Int) ≠ 0xFF → [0x03].length = 1) :=
  ⟨(init_table_well_formed.1 ⟨0xFF, [0x98, 0x81, 0x04], 3⟩ (by decide)).2.2.2.2.1,
    (init_table_well_formed.1 ⟨0xB7, [0x03], 1⟩ (by decide)).2.2.2.2.2⟩

/-! ## Reachable states -/

theorem reset_panel (K : IdfDefs) (E : Env) (tr : List Event) (s : ili9881c_panel_t) :
    (panel_ili9881c_reset K E tr s).panel = s := by
  by_cases h : s.reset_gpio_num ≥ 0
  · rw [reset_hardware_eq K E tr s h]
  · rw [reset_software_eq K E tr s (by omega)]

/-- What a call leaves of the two cached registers: `mirror` and `swap_xy`
rewrite `madctl_val`, no call writes `colmod_val`. -/
theorem panel_call_registers (K : IdfDefs) (E : Env) (tr : List Event) (s : ili9881c_panel_t)
    (c : PanelCall) :
    (panel_call K E tr s c).panel.colmod_val = s.colmod_val
      ∧ ((panel_call K E tr s c).panel.madctl_val = s.madctl_val
        ∨ (∃ x y, (panel_call K E tr s c).panel.madctl_val = madctl_after_mirror K s.madctl_val x y)
        ∨ (∃ b, (panel_call K E tr s c).panel.madctl_val
            = madctl_after_swap_xy K s.madctl_val b)) := by
  cases c with
  | reset => simp [panel_call, reset_panel]
  | init => simp [panel_call, init_panel]
  | invert_color b => simp [panel_call, invert_color_eq]
  | mirror x y =>
    refine ⟨?_, Or.inr (Or.inl ⟨x, y, ?_⟩)⟩ <;> simp only [panel_call, mirror_eq]
  | swap_xy b =>
    refine ⟨?_, Or.inr (Or.inr ⟨b, ?_⟩)⟩ <;> simp only [panel_call, swap_xy_eq]
  | set_gap x y => exact ⟨rfl, Or.inl rfl⟩
  | disp_on_off b => simp [panel_call, disp_on_off_eq]
  | disp_sleep b => simp [panel_call, sleep_eq]

theorem testBit_madctl_mask (K : IdfDefs) (i : Nat) :
    (madctl_mask K).testBit i
      = (K.LCD_CMD_BGR_BIT.testBit i || K.LCD_CMD_MV_BIT.testBit i
          || K.LCD_CMD_MX_BIT.testBit i || K.LCD_CMD_MY_BIT.testBit i) := by
  simp [madctl_mask, Nat.testBit_or]

theorem mirror_bit_in_mask (K : IdfDefs) (v : Nat) (x y : Bool) (i : Nat)
    (hv : v.testBit i = true → (madctl_mask K).testBit i = true)
    (hi : (madctl_after_mirror K v x y).testBit i = true) :
    (madctl_mask K).testBit i = true := by
  rw [testBit_madctl_after_mirror] at hi
  rw [testBit_madctl_mask] at hv ⊢
  cases hY : K.LCD_CMD_MY_BIT.testBit i
  · cases hX : K.LCD_CMD_MX_BIT.testBit i
    · rw [hY, hX] at hi hv
      simp only [Bool.false_eq_true, if_false, Bool.and_eq_true, decide_eq_true_eq] at hi
      simpa using hv hi.2
    · simp
  · simp

theorem swap_xy_bit_in_mask (K : IdfDefs) (v : Nat) (b : Bool) (i : Nat)
    (hv : v.testBit i = true → (madctl_mask K).testBit i = true)
    (hi : (madctl_after_swap_xy K v b).testBit i = true) :
    (madctl_mask K).testBit i = true := by
  rw [testBit_madctl_after_swap_xy] at hi
  rw [testBit_madctl_mask] at hv ⊢
  cases hV : K.LCD_CMD_MV_BIT.testBit i
  · rw [hV] at hi hv
    simp only [Bool.false_eq_true, if_false, Bool.and_eq_true, decide_eq_true_eq] at hi
    simpa using hv hi.2
  · simp

theorem mirror_keeps_other_bit (K : IdfDefs) (v : Nat) (x y : Bool) (i : Nat)
    (hX : K.LCD_CMD_MX_BIT.testBit i = false) (hY : K.LCD_CMD_MY_BIT.testBit i = false) :
    (madctl_after_mirror K v x y).testBit i = (decide (i < 8) && v.testBit i) := by
  rw [testBit_madctl_after_mirror, hX, hY]
  simp

theorem swap_xy_keeps_other_bit (K : IdfDefs) (v : Nat) (b : Bool) (i : Nat)
    (hV : K.LCD_CMD_MV_BIT.testBit i = false) :
    (madctl_after_swap_xy K v b).testBit i = (decide (i < 8) && v.testBit i) := by
  rw [testBit_madctl_after_swap_xy, hV]
  simp

/-- The bitwise form of the invariant of the cached registers relative to the
instance `p` the constructor stored. -/
theorem panel_calls_registers (K : IdfDefs) (E : Env) (p : ili9881c_panel_t)
    (hmv : K.LCD_CMD_BGR_BIT &&& K.LCD_CMD_MV_BIT = 0)
    (hmx : K.LCD_CMD_BGR_BIT &&& K.LCD_CMD_MX_BIT = 0)
    (hmy : K.LCD_CMD_BGR_BIT &&& K.LCD_CMD_MY_BIT = 0)
    (hbyte : p.madctl_val < 256) :
    ∀ (calls : List PanelCall) (tr : List Event) (s : ili9881c_panel_t),
      s.colmod_val = p.colmod_val →
      (∀ i, s.madctl_val.testBit i = true → (madctl_mask K).testBit i = true) →
      (∀ i, K.LCD_CMD_BGR_BIT.testBit i = true → s.madctl_val.testBit i = p.madctl_val.testBit i) →
      (panel_calls K E calls tr s).1.colmod_val = p.colmod_val
        ∧ (∀ i, (panel_calls K E calls tr s).1.madctl_val.testBit i = true →
            (madctl_mask K).testBit i = true)
        ∧ (∀ i, K.LCD_CMD_BGR_BIT.testBit i = true →
            (panel_calls K E calls tr s).1.madctl_val.testBit i = p.madctl_val.testBit i) := by
  have hbit : ∀ (v : Nat) (i : Nat), v.testBit i = p.madctl_val.testBit i →
      (decide (i < 8) && v.testBit i) = p.madctl_val.testBit i := by
    intro v i hv
    by_cases h8 : i < 8
    · simp [h8, hv]
    · have hp : p.madctl_val.testBit i = false := by
        by_contra hne
        exact h8 (testBit_of_lt_256 _ i hbyte (by simpa using hne))
      simp [h8, hp]
  intro calls
  induction calls with
  | nil =>
    intro tr s h1 h2 h3
    exact ⟨h1, h2, h3⟩
  | cons c rest ih =>
    intro tr s h1 h2 h3
    obtain ⟨hcol, hmad⟩ := panel_call_registers K E tr s c
    simp only [panel_calls]
    apply ih
    · rw [hcol, h1]
    · intro i hi
      rcases hmad with h | ⟨x, y, h⟩ | ⟨b, h⟩
      · rw [h] at hi
        exact h2 i hi
      · rw [h] at hi
        exact mirror_bit_in_mask K s.madctl_val x y i (h2 i) hi
      · rw [h] at hi
        exact swap_xy_bit_in_mask K s.madctl_val b i (h2 i) hi
    · intro i hi
      rcases hmad with h | ⟨x, y, h⟩ | ⟨b, h⟩
      · rw [h]
        exact h3 i hi
      · rw [h, mirror_keeps_other_bit K s.madctl_val x y i
          (testBit_of_and_eq_zero _ _ i hmx hi) (testBit_of_and_eq_zero _ _ i hmy hi)]
        exact hbit _ i (h3 i hi)
      · rw [h, swap_xy_keeps_other_bit K s.madctl_val b i
          (testBit_of_and_eq_zero _ _ i hmv hi)]
        exact hbit _ i (h3 i hi)

theorem seeded_panel_madctl_bits (K : IdfDefs) (io : Nat) (cfg : esp_lcd_panel_dev_config_t) :
    (seeded_panel K io cfg).madctl_val < 256
      ∧ ∀ i, (seeded_panel K io cfg).madctl_val.testBit i = true →
          K.LCD_CMD_BGR_BIT.testBit i = true := by
  unfold seeded_panel
  by_cases h : cfg.rgb_ele_order = K.LCD_RGB_ELEMENT_ORDER_RGB
  · simp [h]
  · simp only [h, if_false]
    refine ⟨Nat.mod_lt _ (by norm_num), ?_⟩
    intro i hi
    have h256 : (256 : Nat) = 2 ^ 8 := by norm_num
    rw [h256, Nat.testBit_mod_two_pow] at hi
    simp at hi
    exact hi.2

/-- C19: take the instance `p` stored by a successful construction and let a
caller make any sequence of `reset`, `init`, `invert_color`, `mirror`,
`swap_xy`, `set_gap`, `disp_on_off` and `sleep` calls on it, on any platform.
In the instance at the end `colmod_val` is one of 0x55, 0x66, 0x77 and is
the value seeded at construction, the `LCD_CMD_BGR_BIT` part of `madctl_val`
is the one seeded at construction, and `madctl_val` has no bit outside
`LCD_CMD_BGR_BIT | LCD_CMD_MV_BIT | LCD_CMD_MX_BIT | LCD_CMD_MY_BIT`.  The
assumptions on the header say that the colour-order bit is none of the
axis-swap and mirror bits. -/
theorem reachable_registers_invariant (K : IdfDefs) (E0 E : Env) (tr0 tr : List Event)
    (io : Nat) (cfg : esp_lcd_panel_dev_config_t) (p : ili9881c_panel_t)
    (calls : List PanelCall)
    (hmv : K.LCD_CMD_BGR_BIT &&& K.LCD_CMD_MV_BIT = 0)
    (hmx : K.LCD_CMD_BGR_BIT &&& K.LCD_CMD_MX_BIT = 0)
    (hmy : K.LCD_CMD_BGR_BIT &&& K.LCD_CMD_MY_BIT = 0)
    (hp : (esp_lcd_new_panel_ili9881c K E0 tr0 io (some cfg) true).ret_panel = some p) :
    ((panel_calls K E calls tr p).1.colmod_val = 0x55
        ∨ (panel_calls K E calls tr p).1.colmod_val = 0x66
        ∨ (panel_calls K E calls tr p).1.colmod_val = 0x77)
      ∧ (panel_calls K E calls tr p).1.colmod_val = p.colmod_val
      ∧ (panel_calls K E calls tr p).1.madctl_val &&& K.LCD_CMD_BGR_BIT
        = p.madctl_val &&& K.LCD_CMD_BGR_BIT
      ∧ (panel_calls K E calls tr p).1.madctl_val &&& madctl_mask K
        = (panel_calls K E calls tr p).1.madctl_val := by
  obtain ⟨-, rfl⟩ := new_panel_stored_instance K E0 tr0 io cfg true p hp
  obtain ⟨hbyte, hseed⟩ := seeded_panel_madctl_bits K io cfg
  obtain ⟨hcol, hmask, hbgr⟩ := panel_calls_registers K E (seeded_panel K io cfg) hmv hmx hmy
    hbyte calls tr (seeded_panel K io cfg) rfl
    (by
      intro i hi
      rw [testBit_madctl_mask, hseed i hi]
      simp)
    (fun _ _ => rfl)
  refine ⟨?_, hcol, ?_, ?_⟩
  · rw [hcol]
    unfold seeded_panel
    by_cases h16 : cfg.bits_per_pixel = 16
    · simp [h16]
    · by_cases h18 : cfg.bits_per_pixel = 18
      · simp [h18]
      · simp [h16, h18]
  · apply Nat.eq_of_testBit_eq
    intro i
    rw [Nat.testBit_and, Nat.testBit_and]
    cases hb : K.LCD_CMD_BGR_BIT.testBit i
    · simp
    · rw [hbgr i hb]
  · apply Nat.eq_of_testBit_eq
    intro i
    rw [Nat.testBit_and]
    cases hm : (panel_calls K E calls tr (seeded_panel K io cfg)).1.madctl_val.testBit i
    · simp
    · rw [hmask i hm]
      rfl

/-- C19 on the ESP-IDF values: the instance built for BGR at 18 bits per pixel,
after nine calls on a transport that rejects every write, still caches 0x66
and the colour-order bit. -/
theorem reachable_registers_invariant_witness :
    (panel_calls esp_idf env_tx_fail
        [.reset, .init, .mirror true true, .swap_xy true, .set_gap 3 4, .invert_color true,
         .disp_on_off true, .disp_sleep false, .mirror false true] []
        ⟨1, 5, 0, 0, 0x08, 0x66, 0, true⟩).1.colmod_val = 0x66
      ∧ (panel_calls esp_idf env_tx_fail
        [.reset, .init, .mirror true true, .swap_xy true, .set_gap 3 4, .invert_color true,
         .disp_on_off true, .disp_sleep false, .mirror false true] []
        ⟨1, 5, 0, 0, 0x08, 0x66, 0, true⟩).1.madctl_val &&& esp_idf.LCD_CMD_BGR_BIT = 0x08 :=
  have h := reachable_registers_invariant esp_idf env_ok env_tx_fail [] [] 1 ⟨5, 1, 18, true⟩
    ⟨1, 5, 0, 0, 0x08, 0x66, 0, true⟩
    [.reset, .init, .mirror true true, .swap_xy true, .set_gap 3 4, .invert_color true,
     .disp_on_off true, .disp_sleep false, .mirror false true]
    (by decide) (by decide) (by decide) rfl
  ⟨h.2.1, h.2.2.1⟩

/-! ## Mirror and axis swap together -/

theorem madctl_mirror_swap_xy_comm (K : IdfDefs) (v : Nat) (x y b : Bool)
    (hx : K.LCD_CMD_MV_BIT &&& K.LCD_CMD_MX_BIT = 0)
    (hy : K.LCD_CMD_MV_BIT &&& K.LCD_CMD_MY_BIT = 0) :
    madctl_after_swap_xy K (madctl_after_mirror K v x y) b
      = madctl_after_mirror K (madctl_after_swap_xy K v b) x y := by
  apply Nat.eq_of_testBit_eq
  intro i
  simp only [testBit_madctl_after_swap_xy, testBit_madctl_after_mirror]
  cases hV : K.LCD_CMD_MV_BIT.testBit i
  · cases K.LCD_CMD_MY_BIT.testBit i <;> cases K.LCD_CMD_MX_BIT.testBit i <;>
      by_cases h8 : i < 8 <;> simp [h8]
  · have hX := testBit_of_and_eq_zero _ _ i hx hV
    have hY := testBit_of_and_eq_zero _ _ i hy hV
    simp [hX, hY]

/-- C20: `panel_ili9881c_mirror` and `panel_ili9881c_swap_xy` commute on the
instance: whatever the transport answers to any of the four calls, the
instance after `mirror(x, y)` then `swap_xy(v)` is the instance after
`swap_xy(v)` then `mirror(x, y)`, and the `LCD_CMD_MADCTL` byte written by the
last call is the same in both orders.  The assumptions on the header say that
the axis-swap bit is neither mirror bit. -/
theorem mirror_swap_xy_commute (K : IdfDefs) (E1 E2 E3 E4 : Env) (tr1 tr2 tr3 tr4 : List Event)
    (s : ili9881c_panel_t) (x y v : Bool)
    (hx : K.LCD_CMD_MV_BIT &&& K.LCD_CMD_MX_BIT = 0)
    (hy : K.LCD_CMD_MV_BIT &&& K.LCD_CMD_MY_BIT = 0) :
    (panel_ili9881c_swap_xy K E2 tr2 (panel_ili9881c_mirror K E1 tr1 s x y).panel v).panel
        = (panel_ili9881c_mirror K E4 tr4 (panel_ili9881c_swap_xy K E3 tr3 s v).panel x y).panel
      ∧ ∃ byte,
          (panel_ili9881c_swap_xy K E2 tr2 (panel_ili9881c_mirror K E1 tr1 s x y).panel v).trace
            = tr2 ++ [Event.tx_param s.io K.LCD_CMD_MADCTL [byte] 1]
          ∧ (panel_ili9881c_mirror K E4 tr4 (panel_ili9881c_swap_xy K E3 tr3 s v).panel x
              y).trace = tr4 ++ [Event.tx_param s.io K.LCD_CMD_MADCTL [byte] 1] := by
  refine ⟨?_, madctl_after_mirror K (madctl_after_swap_xy K s.madctl_val v) x y, ?_, ?_⟩
  · simp only [mirror_eq, swap_xy_eq, madctl_mirror_swap_xy_comm K s.madctl_val x y v hx hy]
  · simp only [mirror_eq, swap_xy_eq, madctl_mirror_swap_xy_comm K s.madctl_val x y v hx hy]
  · simp only [mirror_eq, swap_xy_eq]

/-- C20 on the ESP-IDF values: both orders of `mirror(true, false)` and
`swap_xy(true)` on an instance caching 0x88 end with the same instance, and
the last write carries 0x68 in both. -/
theorem mirror_swap_xy_commute_witness :
    (panel_ili9881c_swap_xy esp_idf env_tx_fail []
        (panel_ili9881c_mirror esp_idf env_ok [] ⟨1, -1, 0, 0, 0x88, 0x55, 0, false⟩ true
          false).panel true).panel
        = (panel_ili9881c_mirror esp_idf env_ok []
          (panel_ili9881c_swap_xy esp_idf env_tx_fail [] ⟨1, -1, 0, 0, 0x88, 0x55, 0, false⟩
            true).panel true false).panel
      ∧ (panel_ili9881c_mirror esp_idf env_ok []
          (panel_ili9881c_swap_xy esp_idf env_tx_fail [] ⟨1, -1, 0, 0, 0x88, 0x55, 0, false⟩
            true).panel true false).trace
        = [Event.tx_param 1 esp_idf.LCD_CMD_MADCTL [0x68] 1] :=
  ⟨(mirror_swap_xy_commute esp_idf env_ok env_tx_fail env_tx_fail env_ok [] [] [] []
      ⟨1, -1, 0, 0, 0x88, 0x55, 0, false⟩ true false true (by decide) (by decide)).1,
    rfl⟩

end Ili9881c
